import Mathlib

/-!
Shallow embedding of the royalm simulation core.

Interactive mode: `src/backend/world_brain.py` (WorldBrain: entity model,
action generation, outcome resolution, relation feedback, news fallback,
tick orchestration, map snapshots).

Predictive mode: `src/backend/predictive_simulation_service.py`
(PredictiveSimulationService: pattern library, probability scoring,
timeline projection, end conditions) with the record shapes of
`src/backend/models.py`.

Python dictionaries are embedded as insertion-ordered association lists,
datetimes as integer day counts, floats as rationals, and fallible
dynamic behaviour (attribute errors, positional-argument binding) as
`Except PyErr`.
-/

namespace Royalm

/-- Dynamic (Python runtime) errors the embedded code can raise. -/
inductive PyErr where
  | typeError (msg : String)
  | attributeError (msg : String)
  | unboundLocal (msg : String)
deriving Repr, DecidableEq

/-- Python `int()` applied to a float/rational: truncation toward zero. -/
def pyInt (q : ℚ) : Int := if 0 ≤ q then ⌊q⌋ else ⌈q⌉

/-- Python substring test `sub in s` on strings. -/
def pyContains (sub s : String) : Bool := (s.splitOn sub).length != 1

/-- Lookup in an insertion-ordered association list (Python `dict.get` /
`d[k]` returning `none` when the key is absent). -/
def alookup {α : Type} (k : String) : List (String × α) → Option α
  | [] => none
  | (k2, v) :: rest => if k2 = k then some v else alookup k rest

/-- Key assignment `d[k] = v` on an insertion-ordered association list:
an existing key keeps its position, a new key is appended. -/
def dinsert {α : Type} (k : String) (v : α) : List (String × α) → List (String × α)
  | [] => [(k, v)]
  | (k2, v2) :: rest => if k2 = k then (k2, v) :: rest else (k2, v2) :: dinsert k v rest

/-- Python `str.title()` for one word: first character upper-cased, the rest
lower-cased. -/
def pyTitleWord (w : String) : String :=
  match w.data with
  | [] => ""
  | c :: rest => String.mk (c.toUpper :: rest.map Char.toLower)

/-- Python `str.title()` restricted to space-separated words, which is how the
source applies it (stat keys with underscores already replaced by spaces). -/
def pyTitle (s : String) : String :=
  String.intercalate " " ((s.splitOn " ").map pyTitleWord)

/-- Modelled from the spec: the Python stdlib `random` module global PRNG
(not part of this repository). The spec (§5, §8) requires an explicit
deterministic seeded source; the stdlib PRNG is a deterministic state
machine, modelled here with a linear congruential update standing in for
the Mersenne Twister step. -/
def rngNext (s : Nat) : Nat := (1103515245 * s + 12345) % 2147483648

/-- Modelled from the spec: `random.random()`, a uniform draw in [0, 1)
advancing the PRNG state. -/
def randRandom (s : Nat) : ℚ × Nat :=
  let s2 := rngNext s
  ((s2 : ℚ) / 2147483648, s2)

/-- Modelled from the spec: `random.randint(a, b)`, a uniform integer in
[a, b] (both ends included) advancing the PRNG state. -/
def randInt (a b : Int) (s : Nat) : Int × Nat :=
  let s2 := rngNext s
  (a + ((s2 : Int) % (b - a + 1)), s2)

/-- Modelled from the spec: `random.choice(xs)` for the nonempty lists the
source applies it to (Python raises IndexError on an empty sequence; every
embedded call site is guarded, so the default is never selected on the
source's own inputs). -/
def randChoice {α : Type} (xs : List α) (dflt : α) (s : Nat) : α × Nat :=
  let s2 := rngNext s
  (xs.getD (s2 % xs.length) dflt, s2)

/-- Modelled from the spec: `random.seed(n)` resets the PRNG state to a
deterministic function of the seed alone. -/
def seedPRNG (n : Int) : Nat := n.natAbs % 2147483648

/-- Python truthiness of an `Optional[int]`: `None` and `0` are both falsy
(`if seed:` at world_brain.py:139). -/
def pyTruthy : Option Int → Bool
  | none => false
  | some n => n != 0

namespace WB

/-- Country dataclass, world_brain.py:18. -/
structure Country where
  id : String
  name : String
  gdp : ℚ
  population : Int
  military_budget : ℚ
  nuclear_warheads : Int
  active_military : Int
  cyber_capability : Int
  space_capability : Int
  energy_balance : ℚ
  food_balance : ℚ
  regime_type : String
  bloc : String
  alliances : List String
  major_cities : List String
  key_industries : List String
  influence_level : Int := 50
  stability : Int := 70
  morale : Int := 70
deriving Repr, DecidableEq

/-- Doctrine dataclass, world_brain.py:41. -/
structure Doctrine where
  country_id : String
  name : String
  description : String
  aggression_level : Int
  cooperation_level : Int
  risk_tolerance : Int
deriving Repr, DecidableEq

/-- Relation dataclass, world_brain.py:51. -/
structure Relation where
  country_a : String
  country_b : String
  trust_level : Int
  trade_volume : ℚ
  military_cooperation : Int
  diplomatic_relations : Int
  historical_conflicts : List String := []
  cultural_affinity : Int := 0
deriving Repr, DecidableEq

/-- Action dataclass, world_brain.py:63. Timestamps are integer day counts. -/
structure Action where
  id : String
  actor_id : String
  target_id : Option String
  action_type : String
  description : String
  intensity : Int
  timestamp : Int
  success_probability : ℚ
deriving Repr, DecidableEq

/-- Outcome dataclass, world_brain.py:75. `stat_changes` maps stat names to
formatted signed-delta strings, as `_calculate_stat_changes` builds them. -/
structure Outcome where
  action_id : String
  success : Bool
  impact_magnitude : Int
  casualties : Int := 0
  economic_damage : ℚ := 0
  diplomatic_impact : Int := 0
  escalation_triggered : Bool := false
  new_escalation_level : Int := 0
  stat_changes : List (String × String) := []
deriving Repr, DecidableEq

/-- GeneratedNews dataclass, world_brain.py:88. -/
structure GeneratedNews where
  headline : String
  lede : String
  content : String
  country : String
  category : String
  severity : String
  reliability : String
  source : String
  timestamp : Int
  stat_changes : List (String × String) := []
deriving Repr, DecidableEq

/-- Per-country entry of `MapState.country_states` (the inner dict built at
world_brain.py:788). -/
structure CountrySnap where
  stability : Int
  morale : Int
  influence : Int
  bloc : String
deriving Repr, DecidableEq

/-- MapState dataclass, world_brain.py:102. -/
structure MapState where
  timestamp : Int
  country_states : List (String × CountrySnap)
  bloc_distribution : List (String × Int)
  global_tension : Int
  active_conflicts : List String
deriving Repr, DecidableEq

/-- WorldState dataclass, world_brain.py:111. `global_indicators` is the
read-only payload of the external reference-data provider. -/
structure WorldState where
  timestamp : Int
  current_date : Int
  week_number : Int
  countries : List (String × Country)
  doctrines : List (String × Doctrine)
  relations : List (String × Relation)
  actions : List Action
  outcomes : List Outcome
  news : List GeneratedNews
  map_states : List MapState
  map_state : MapState
  global_indicators : List (String × ℚ)
deriving Repr, DecidableEq

/-- Record shape served by the external reference-data provider
(`world_data_service.country_data`), as `initialize_world` reads it. -/
structure CountryData where
  name : String
  gdp_2024 : ℚ
  population : Int
  military_budget : ℚ
  nuclear_warheads : Int
  active_military : Int
  cyber_capability : Int
  space_capability : Int
  energy_balance : ℚ
  food_balance : ℚ
  regime_type : String
  bloc : String
  alliances : List String
  major_cities : List String
  key_industries : List String
deriving Repr, DecidableEq

/-- Record shape served by the external leaders provider
(`world_leaders_service.leaders`), as the doctrine calculators read it. -/
structure LeaderData where
  country : String
  name : String
  personality_traits : List String
  recent_actions : List String
  relationships : List (String × String)
  controversy_level : Int
deriving Repr, DecidableEq

/-- WorldBrain._calculate_aggression, world_brain.py:263. -/
def calculate_aggression (leader : LeaderData) : Int :=
  let b0 : Int := 50
  let b1 := if "combative" ∈ leader.personality_traits then b0 + 20 else b0
  let b2 := if "authoritarian" ∈ leader.personality_traits then b1 + 15 else b1
  let b3 := if "nationalist" ∈ leader.personality_traits then b2 + 10 else b2
  let b4 := if leader.recent_actions.any (fun a => pyContains "invasion" a.toLower) then b3 + 25 else b3
  let b5 := if leader.recent_actions.any (fun a => pyContains "pressure" a.toLower) then b4 + 15 else b4
  min 100 (max 0 b5)

/-- WorldBrain._calculate_cooperation, world_brain.py:284. -/
def calculate_cooperation (leader : LeaderData) : Int :=
  let b0 : Int := 50
  let b1 := if "diplomatic" ∈ leader.personality_traits then b0 + 20 else b0
  let b2 := if "consensus-builder" ∈ leader.personality_traits then b1 + 15 else b1
  let b3 := if "transactional" ∈ leader.personality_traits then b2 + 10 else b2
  let ally_count := (leader.relationships.filter (fun r => pyContains "ally" r.2.toLower)).length
  let b4 := b3 + (ally_count : Int) * 5
  min 100 (max 0 b4)

/-- WorldBrain._calculate_risk_tolerance, world_brain.py:303. The controversy
adjustment is float arithmetic truncated back by `int(...)`. -/
def calculate_risk_tolerance (leader : LeaderData) : Int :=
  let b0 : Int := 50
  let b1 := if "ruthless" ∈ leader.personality_traits then b0 + 20 else b0
  let b2 := if "strategic" ∈ leader.personality_traits then b1 + 10 else b1
  let b3 := if "cautious" ∈ leader.personality_traits then b2 - 15 else b2
  let q : ℚ := (b3 : ℚ) + ((leader.controversy_level : ℚ) - 50) * 0.3
  min 100 (max 0 (pyInt q))

/-- Size of `set(a) & set(b)`: distinct elements of `a` occurring in `b`
(world_brain.py:327). -/
def alliance_overlap (a b : List String) : Nat :=
  (a.dedup.filter (fun x => x ∈ b)).length

/-- WorldBrain._initialize_relation, world_brain.py:321. -/
def initialize_relation (ca cb : Country) : Relation :=
  let overlap := alliance_overlap ca.alliances cb.alliances
  let t0 : Int := if ca.bloc = cb.bloc then 60 else if overlap > 0 then 40 else 0
  let t1 : Int :=
    if ca.regime_type = cb.regime_type then t0 + 20
    else if (ca.regime_type = "democracy" ∧ cb.regime_type = "authoritarian")
        ∨ (ca.regime_type = "authoritarian" ∧ cb.regime_type = "democracy") then t0 - 30
    else t0
  { country_a := ca.id, country_b := cb.id, trust_level := t1, trade_volume := 0,
    military_cooperation := (overlap : Int) * 20, diplomatic_relations := t1 }

/-- WorldBrain._create_map_state, world_brain.py:784. The method's two
required positional parameters are `countries` and `relations`; the ambient
clock is the extra `now` argument standing for `datetime.now()`. -/
def create_map_state (countries : List (String × Country))
    (relations : List (String × Relation)) (now : Int) : MapState :=
  let country_states := countries.map fun p =>
    (p.1, CountrySnap.mk p.2.stability p.2.morale p.2.influence_level p.2.bloc)
  let bloc_distribution := countries.foldl
    (fun acc p => dinsert p.2.bloc ((alookup p.2.bloc acc).getD 0 + 1) acc) []
  let total_tension := relations.foldl (fun acc p => acc + max 0 (-(p.2.trust_level))) 0
  let relation_count : Int := relations.length
  let global_tension := min 100 (Int.fdiv total_tension (if relation_count = 0 then 1 else relation_count))
  let active_conflicts := (relations.filter (fun p => p.2.trust_level < -50)).map Prod.fst
  ⟨now, country_states, bloc_distribution, global_tension, active_conflicts⟩

/-- Action categories, world_brain.py:463. -/
def action_types : List String := ["diplomatic", "military", "economic", "cyber"]

/-- WorldBrain._create_action, world_brain.py:461. The PRNG draws mirror the
source order: category choice, target choice, intensity delta, then the four
description choices the dict literal evaluates eagerly (one per category). -/
def create_action (country : Country) (doctrine : Doctrine) (ws : WorldState)
    (s : Nat) : Option Action × Nat :=
  let (action_type, s1) := randChoice action_types "diplomatic" s
  let potential_targets := (ws.countries.map Prod.snd).filter (fun c => c.id ≠ country.id)
  if potential_targets.isEmpty then (none, s1)
  else
    let (target, s2) := randChoice potential_targets country s1
    let (delta, s3) := randInt (-20) 20 s2
    let intensity := max 0 (min 100 (doctrine.aggression_level + delta))
    let (w1, s4) := randChoice ["pressure", "negotiations", "threats", "overtures"] "pressure" s3
    let (w2, s5) := randChoice ["exercises", "deployments", "threats", "operations"] "exercises" s4
    let (w3, s6) := randChoice ["sanctions", "trade restrictions", "incentives", "agreements"] "sanctions" s5
    let (w4, s7) := randChoice ["operations", "espionage", "attacks", "defense"] "operations" s6
    let descriptions : List (String × String) :=
      [("diplomatic", country.name ++ " engages in diplomatic " ++ w1 ++ " with " ++ target.name),
       ("military", country.name ++ " conducts military " ++ w2 ++ " near " ++ target.name),
       ("economic", country.name ++ " implements economic " ++ w3 ++ " with " ++ target.name),
       ("cyber", country.name ++ " conducts cyber " ++ w4 ++ " against " ++ target.name)]
    (some { id := "action_" ++ toString ws.actions.length ++ "_" ++ country.id,
            actor_id := country.id, target_id := some target.id,
            action_type := action_type,
            description := (alookup action_type descriptions).getD "",
            intensity := intensity, timestamp := ws.timestamp,
            success_probability := 0.7 }, s7)

/-- WorldBrain._generate_actions, world_brain.py:444: per country with a
doctrine, one uniform draw decides whether the country acts this step. -/
def generate_actions (ws : WorldState) (s : Nat) : List Action × Nat :=
  ws.countries.foldl
    (fun acc p =>
      match alookup p.1 ws.doctrines with
      | none => acc
      | some doctrine =>
        let (r, s1) := randRandom acc.2
        if r < (doctrine.aggression_level : ℚ) / 100 then
          match create_action p.2 doctrine ws s1 with
          | (some a, s2) => (acc.1 ++ [a], s2)
          | (none, s2) => (acc.1, s2)
        else (acc.1, s1))
    ([], s)

/-- Pre-perturbation impact magnitude of `_process_actions`
(world_brain.py:509): the intensity, floor-halved (`// 2`) on failure. -/
def pre_magnitude (intensity : Int) (success : Bool) : Int :=
  if success then intensity else Int.fdiv intensity 2

/-- Impact magnitude of `_process_actions` (world_brain.py:509): the
pre-perturbation magnitude plus the U(-10, 10) draw, clamped to [0, 100]. -/
def impact_of (intensity : Int) (success : Bool) (draw : Int) : Int :=
  max 0 (min 100 (pre_magnitude intensity success + draw))

/-- Per-action body of WorldBrain._process_actions, world_brain.py:504:
success draw, perturbation draw, clamped magnitude, derived fields.
The casualty draw is only evaluated for military actions. -/
def resolve_action (a : Action) (s : Nat) : Outcome × Nat :=
  let (r, s1) := randRandom s
  let success : Bool := r < a.success_probability
  let (draw, s2) := randInt (-10) 10 s1
  let impact := impact_of a.intensity success draw
  let (casualties, s3) :=
    if a.action_type = "military" then randInt 0 (impact * 100) s2 else (0, s2)
  ({ action_id := a.id, success := success, impact_magnitude := impact,
     casualties := casualties,
     economic_damage := if a.action_type = "economic" then (impact : ℚ) * 1000000 else 0,
     diplomatic_impact := if a.action_type = "diplomatic" then impact else 0,
     escalation_triggered := impact > 70 }, s3)

/-- WorldBrain._process_actions, world_brain.py:500 (its unused
`world_state` parameter is dropped). -/
def process_actions (actions : List Action) (s : Nat) : List Outcome × Nat :=
  actions.foldl (fun acc a =>
    let (o, s2) := resolve_action a acc.2
    (acc.1 ++ [o], s2)) ([], s)

/-- Relation key `f"{action.actor_id}_{action.target_id}"` built at
world_brain.py:540; a missing target renders as the string "None". -/
def relation_key (a : Action) : String :=
  a.actor_id ++ "_" ++ (match a.target_id with | some t => t | none => "None")

/-- Per-outcome body of WorldBrain._update_world_state, world_brain.py:533:
find the action, look up the actor_target relation, and when present shift
its trust by the diplomatic impact and clamp. -/
def apply_outcome (ws : WorldState) (o : Outcome) : WorldState :=
  match ws.actions.find? (fun a => a.id = o.action_id) with
  | none => ws
  | some a =>
    match alookup (relation_key a) ws.relations with
    | none => ws
    | some r =>
      let t0 := if o.success then r.trust_level + o.diplomatic_impact
                else r.trust_level - o.diplomatic_impact
      let t1 := max (-100) (min 100 t0)
      { ws with relations := dinsert (relation_key a) { r with trust_level := t1 } ws.relations }

/-- WorldBrain._update_world_state, world_brain.py:531. -/
def update_world_state (ws : WorldState) (outcomes : List Outcome) : WorldState :=
  outcomes.foldl apply_outcome ws

/-- WorldBrain._calculate_stat_changes, world_brain.py:724 (its unused
`actor` parameter is dropped). -/
def calculate_stat_changes (a : Action) (o : Outcome) (target : Option Country) :
    List (String × String) :=
  let ip : ℚ := (o.impact_magnitude : ℚ) / 100
  let base :=
    if a.action_type = "diplomatic" then
      if o.success then
        [("diplomatic_relations", "+" ++ toString (pyInt (ip * 10)))]
          ++ (if target.isSome then [("trust_level", "+" ++ toString (pyInt (ip * 15)))] else [])
      else
        [("diplomatic_relations", "-" ++ toString (pyInt (ip * 5)))]
          ++ (if target.isSome then [("trust_level", "-" ++ toString (pyInt (ip * 10)))] else [])
    else if a.action_type = "military" then
      if o.success then
        [("military_readiness", "+" ++ toString (pyInt (ip * 8))),
         ("regional_tension", "+" ++ toString (pyInt (ip * 12)))]
      else
        [("military_readiness", "-" ++ toString (pyInt (ip * 3))),
         ("morale", "-" ++ toString (pyInt (ip * 5)))]
    else if a.action_type = "economic" then
      if o.success then
        [("economic_growth", "+" ++ toString (pyInt (ip * 6)) ++ "%"),
         ("trade_volume", "+" ++ toString (pyInt (ip * 8)) ++ "%")]
      else
        [("economic_growth", "-" ++ toString (pyInt (ip * 2)) ++ "%"),
         ("market_confidence", "-" ++ toString (pyInt (ip * 4)))]
    else if a.action_type = "cyber" then
      if o.success then
        [("cyber_capability", "+" ++ toString (pyInt (ip * 5))),
         ("intelligence_gathering", "+" ++ toString (pyInt (ip * 7)))]
      else
        [("cyber_defense", "+" ++ toString (pyInt (ip * 3))),
         ("security_awareness", "+" ++ toString (pyInt (ip * 4)))]
    else []
  base ++ (if o.escalation_triggered then
    [("global_tension", "+" ++ toString (pyInt (ip * 15))),
     ("nuclear_threat", "+" ++ toString (pyInt (ip * 8)))] else [])

/-- WorldBrain._format_stat_changes, world_brain.py:772. -/
def format_stat_changes (changes : List (String × String)) : String :=
  if changes.isEmpty then "Minimal impact"
  else
    String.intercalate ", "
      ((changes.map (fun p => pyTitle (p.1.replace "_" " ") ++ ": " ++ p.2)).take 3)

/-- Source names offered at world_brain.py:651. -/
def news_sources : List String :=
  ["Reuters", "Associated Press", "Agence France-Presse",
   "BBC News", "CNN International", "Al Jazeera",
   "The New York Times", "The Guardian", "Le Monde",
   "Der Spiegel", "Asahi Shimbun", "The Times of India"]

/-- Attribute access `target.name` where `target` can be `None`: Python
raises AttributeError in that case (the branches of
`_create_news_article` read it without a guard). -/
def target_name : Option Country → Except PyErr String
  | some c => Except.ok c.name
  | none => Except.error (PyErr.attributeError "NoneType object has no attribute name")

/-- WorldBrain._create_news_article, world_brain.py:567: the deterministic
fallback narration. Branches on success and category; an action category
outside the four would leave `headline` unassigned in Python, raised here
as an unbound-local error. -/
def create_news_article (a : Action) (o : Outcome) (ws : WorldState) (s : Nat) :
    Except PyErr (Option GeneratedNews × Nat) := do
  match alookup a.actor_id ws.countries with
  | none => return (none, s)
  | some actor =>
    let target : Option Country :=
      match a.target_id with
      | some tid => alookup tid ws.countries
      | none => none
    let stat_changes := calculate_stat_changes a o target
    let (headline, content, severity) ← (do
      if o.success then
        if a.action_type = "diplomatic" then
          let tn ← target_name target
          return (actor.name ++ " Issues Diplomatic Statement to " ++ tn,
            "The " ++ actor.name ++ " government has issued a formal diplomatic communication to "
              ++ tn ++ ". "
              ++ (if o.impact_magnitude > 70 then
                    "International observers note the unusually strong language used in the statement."
                  else "Diplomatic sources describe the tone as standard protocol."),
            if o.impact_magnitude > 70 then "high" else "medium")
        else if a.action_type = "military" then
          let tn ← target_name target
          return (actor.name ++ " Conducts Military Exercises Near " ++ tn,
            actor.name ++ " has announced military exercises in the region near " ++ tn ++ ". "
              ++ (if o.impact_magnitude > 70 then
                    "The scale and timing of these exercises have raised concerns among regional analysts."
                  else "Military officials describe these as routine training operations."),
            if o.impact_magnitude > 70 then "high" else "medium")
        else if a.action_type = "economic" then
          let tn ← target_name target
          return (actor.name ++ " Announces New Economic Measures Affecting " ++ tn,
            actor.name ++ " has implemented new economic policies that will impact trade relations with "
              ++ tn ++ ". "
              ++ (if o.impact_magnitude > 70 then
                    "Economic experts warn these measures could significantly affect bilateral trade."
                  else "Trade analysts expect minimal disruption to existing economic ties."),
            if o.impact_magnitude > 70 then "high" else "medium")
        else if a.action_type = "cyber" then
          let tn ← target_name target
          return ("Cybersecurity Incident Reported in " ++ tn,
            "Authorities in " ++ tn ++ " have reported a cybersecurity incident affecting government systems. "
              ++ (if o.impact_magnitude > 70 then
                    "Security experts describe this as a sophisticated attack requiring significant resources."
                  else "Officials indicate the incident has been contained with minimal disruption."),
            if o.impact_magnitude > 70 then "high" else "medium")
        else Except.error (PyErr.unboundLocal "headline")
      else
        if a.action_type = "diplomatic" then
          let tn ← target_name target
          return (actor.name ++ " Diplomatic Initiative with " ++ tn ++ " Shows Limited Progress",
            "Recent diplomatic efforts between " ++ actor.name ++ " and " ++ tn
              ++ " have not achieved their stated objectives. "
              ++ "Both sides continue to express commitment to dialogue.",
            "low")
        else if a.action_type = "military" then
          return (actor.name ++ " Military Operations Face Challenges",
            "Recent military activities by " ++ actor.name ++ " have encountered operational difficulties. "
              ++ "Defense officials emphasize the importance of learning from these experiences.",
            "low")
        else if a.action_type = "economic" then
          return (actor.name ++ " Economic Policy Implementation Delayed",
            "Planned economic measures by " ++ actor.name ++ " have faced implementation challenges. "
              ++ "Government officials indicate they are reviewing the policy approach.",
            "low")
        else if a.action_type = "cyber" then
          return ("Cybersecurity Measures in " ++ actor.name ++ " Prove Effective",
            "Recent cybersecurity incidents targeting " ++ actor.name
              ++ " have been successfully defended against. "
              ++ "Security experts credit improved defensive capabilities.",
            "low")
        else Except.error (PyErr.unboundLocal "headline"))
    let content := content ++
      (if o.escalation_triggered then " Regional tensions have increased following these developments." else "")
    let content := content ++
      (if stat_changes.isEmpty then "" else " Impact: " ++ format_stat_changes stat_changes)
    let (days_ago, s1) := randInt 0 6 s
    let article_date := ws.current_date - days_ago
    let reliability :=
      if a.action_type = "cyber" then "uncertain"
      else if o.impact_magnitude > 80 then "confirmed"
      else "likely"
    let (src, s2) := randChoice news_sources "Reuters" s1
    return (some { headline := headline,
                   lede := if content.length > 200 then content.take 200 ++ "..." else content,
                   content := content, country := actor.id, category := a.action_type,
                   severity := severity, reliability := reliability, source := src,
                   timestamp := article_date, stat_changes := stat_changes }, s2)

/-- Template entries of `_generate_additional_news`, world_brain.py:678. -/
structure NewsTemplate where
  headline : String
  content : String
  category : String
  severity : String
  reliability : String
  source : String
deriving Repr, DecidableEq

/-- World-news templates, world_brain.py:678. -/
def world_news_templates : List NewsTemplate :=
  [{ headline := "International Trade Talks Continue",
     content := "Representatives from major trading nations continue negotiations on economic cooperation agreements. Observers note the complexity of balancing national interests with global economic stability.",
     category := "economic", severity := "medium", reliability := "likely", source := "Reuters" },
   { headline := "Regional Security Discussions Intensify",
     content := "Security officials from multiple regions have increased coordination efforts. The discussions focus on addressing shared security challenges and improving response capabilities.",
     category := "military", severity := "medium", reliability := "confirmed", source := "Associated Press" },
   { headline := "Technology Sector Faces Regulatory Changes",
     content := "Governments worldwide are implementing new regulations affecting the technology sector. Industry leaders express concerns about the impact on innovation and global competitiveness.",
     category := "cyber", severity := "low", reliability := "likely", source := "BBC News" }]

/-- WorldBrain._generate_additional_news, world_brain.py:672: a 30% draw,
then a template choice and a 0-3 day offset from the world timestamp. -/
def generate_additional_news (ws : WorldState) (s : Nat) : List GeneratedNews × Nat :=
  let (r, s1) := randRandom s
  if r < 0.3 then
    let (t, s2) := randChoice world_news_templates
      { headline := "", content := "", category := "", severity := "", reliability := "", source := "" } s1
    let (days_ago, s3) := randInt 0 3 s2
    let article_date := ws.timestamp - days_ago
    ([{ headline := t.headline, lede := t.content, content := t.content, country := "Global",
        category := t.category, severity := t.severity, reliability := t.reliability,
        source := t.source, timestamp := article_date }], s3)
  else ([], s1)

/-- WorldBrain._create_psychohistorical_news_article, world_brain.py:824,
under the §8 scenario of an unavailable narration service: the try-block
raises before consuming any randomness, and the except-handler substitutes
the deterministic `_create_news_article` fallback. -/
def create_psychohistorical_news_article (a : Action) (o : Outcome) (ws : WorldState)
    (s : Nat) : Except PyErr (Option GeneratedNews × Nat) :=
  create_news_article a o ws s

/-- WorldBrain._generate_additional_psychohistorical_news, world_brain.py:880:
its try-block raises before consuming randomness (the service is
unavailable; independently, the `r.tension_level` attribute access at
world_brain.py:890 fails on every Relation), so the except-handler always
substitutes `_generate_additional_news`. -/
def generate_additional_psychohistorical_news (ws : WorldState) (s : Nat) :
    List GeneratedNews × Nat :=
  generate_additional_news ws s

/-- Per-pair loop of WorldBrain._generate_news, world_brain.py:554: only
outcomes with impact magnitude above 50 are narrated. -/
def generate_news_loop (ws : WorldState) :
    List (Action × Outcome) → List GeneratedNews → Nat →
    Except PyErr (List GeneratedNews × Nat)
  | [], acc, s => Except.ok (acc, s)
  | (a, o) :: rest, acc, s =>
    if o.impact_magnitude > 50 then
      match create_psychohistorical_news_article a o ws s with
      | Except.error e => Except.error e
      | Except.ok (some n, s2) => generate_news_loop ws rest (acc ++ [n]) s2
      | Except.ok (none, s2) => generate_news_loop ws rest acc s2
    else generate_news_loop ws rest acc s

/-- WorldBrain._generate_news, world_brain.py:549: narrate the important
outcomes, then a 20% draw for one ambient article. -/
def generate_news (ws : WorldState) (actions : List Action) (outcomes : List Outcome)
    (s : Nat) : Except PyErr (List GeneratedNews × Nat) := do
  let (articles, s1) ← generate_news_loop ws (actions.zip outcomes) [] s
  let (r, s2) := randRandom s1
  if r < 0.2 then
    let (extra, s3) := generate_additional_psychohistorical_news ws s2
    return (articles ++ extra, s3)
  else
    return (articles, s2)

/-- Mutating portion of WorldBrain.tick, world_brain.py:223-250: advance the
date one week, generate actions, resolve them, feed relations, and build the
(fallback) narration. In the source these mutations land on the stored world
state before the snapshot call at line 253 runs. -/
def tickCore (ws : WorldState) (s : Nat) : Except PyErr (WorldState × Nat) := do
  let ws1 := { ws with current_date := ws.current_date + 7, week_number := ws.week_number + 1 }
  let (new_actions, s1) := generate_actions ws1 s
  let ws2 := { ws1 with actions := ws1.actions ++ new_actions }
  let (new_outcomes, s2) := process_actions new_actions s1
  let ws3 := { ws2 with outcomes := ws2.outcomes ++ new_outcomes }
  let ws4 := update_world_state ws3 new_outcomes
  let (new_news, s3) ← generate_news ws4 new_actions new_outcomes s2
  return ({ ws4 with news := ws4.news ++ new_news }, s3)

/-- Number of required positional parameters of `_create_map_state`
(world_brain.py:784: `countries` and `relations`). -/
def create_map_state_param_count : Nat := 2

/-- Number of positional arguments the tick call site provides
(world_brain.py:253: `self._create_map_state(world_state)`). -/
def tick_map_state_arg_count : Nat := 1

/-- Snapshot call of WorldBrain.tick, world_brain.py:253. Python binds
positional arguments before entering the body and raises TypeError when a
required parameter is unbound; the else branch (the call as the surrounding
code intends it) is unreachable because one argument is supplied where two
parameters are required. -/
def tick_map_state_call (ws : WorldState) (now : Int) : Except PyErr MapState :=
  if tick_map_state_arg_count < create_map_state_param_count then
    Except.error (PyErr.typeError
      "_create_map_state() missing 1 required positional argument: relations")
  else
    Except.ok (create_map_state ws.countries ws.relations now)

/-- WorldBrain.tick, world_brain.py:223: the mutating pipeline followed by
the snapshot append and the timestamp refresh. -/
def tick (ws : WorldState) (now : Int) (s : Nat) : Except PyErr (WorldState × Nat) := do
  let (ws5, s3) ← tickCore ws s
  let m ← tick_map_state_call ws5 now
  return ({ ws5 with map_states := ws5.map_states ++ [m], timestamp := now }, s3)

/-- WorldBrain._generate_initial_news, world_brain.py:353: the deterministic
fallback for initial narration, six fixed articles dated relative to the
ambient clock. No randomness is consumed. -/
def generate_initial_news (now : Int) : List GeneratedNews :=
  [{ headline := "Trump-Putin Alaska Summit Ends Without Breakthrough",
     lede := "The highly anticipated summit between former US President Donald Trump and Russian President Vladimir Putin in Alaska concluded without significant agreements. The meeting, which lasted several hours, focused on Ukraine, trade relations, and regional security concerns. Analysts note the summit elevated Putin’s international standing while Trump continues to pressure Ukraine for territorial concessions.",
     content := "The highly anticipated summit between former US President Donald Trump and Russian President Vladimir Putin in Alaska concluded without significant agreements. The meeting, which lasted several hours, focused on Ukraine, trade relations, and regional security concerns. Analysts note the summit elevated Putin’s international standing while Trump continues to pressure Ukraine for territorial concessions.",
     country := "Global", category := "diplomatic", severity := "high",
     reliability := "confirmed", source := "Reuters", timestamp := now - 45 },
   { headline := "Ukraine’s Counteroffensive Fails to Achieve Strategic Gains",
     lede := "Ukraine’s much-anticipated summer counteroffensive has failed to achieve significant territorial gains against Russian forces. Military analysts report that despite heavy casualties, Ukrainian forces have been unable to break through heavily fortified Russian defensive lines. The failure has led to increased war fatigue in Western nations and growing pressure for peace negotiations.",
     content := "Ukraine’s much-anticipated summer counteroffensive has failed to achieve significant territorial gains against Russian forces. Military analysts report that despite heavy casualties, Ukrainian forces have been unable to break through heavily fortified Russian defensive lines. The failure has led to increased war fatigue in Western nations and growing pressure for peace negotiations.",
     country := "Global", category := "military", severity := "high",
     reliability := "confirmed", source := "Associated Press", timestamp := now - 30 },
   { headline := "China Intensifies Military Pressure Around Taiwan",
     lede := "China has significantly increased military activities around Taiwan, including large-scale air incursions and naval exercises. The People’s Liberation Army has conducted multiple drills simulating blockade scenarios, raising concerns about potential escalation. Taiwan’s defense ministry reports detecting over 100 Chinese military aircraft in the region this month.",
     content := "China has significantly increased military activities around Taiwan, including large-scale air incursions and naval exercises. The People’s Liberation Army has conducted multiple drills simulating blockade scenarios, raising concerns about potential escalation. Taiwan’s defense ministry reports detecting over 100 Chinese military aircraft in the region this month.",
     country := "Global", category := "military", severity := "high",
     reliability := "confirmed", source := "BBC News", timestamp := now - 25 },
   { headline := "US-China Trade Tensions Escalate Over Technology Restrictions",
     lede := "Trade tensions between the United States and China have intensified as the US implements new restrictions on advanced technology exports to China. The measures target semiconductors, artificial intelligence, and quantum computing technologies. China has vowed to retaliate with its own export controls, raising concerns about a new phase in the economic rivalry between the world’s two largest economies.",
     content := "Trade tensions between the United States and China have intensified as the US implements new restrictions on advanced technology exports to China. The measures target semiconductors, artificial intelligence, and quantum computing technologies. China has vowed to retaliate with its own export controls, raising concerns about a new phase in the economic rivalry between the world’s two largest economies.",
     country := "Global", category := "economic", severity := "high",
     reliability := "confirmed", source := "CNN International", timestamp := now - 60 },
   { headline := "Global Markets Volatile Amid Economic Policy Uncertainty",
     lede := "International financial markets have experienced significant volatility as major economies implement conflicting economic policies. The US Federal Reserve’s continued interest rate hikes, combined with China’s stimulus measures and Europe’s energy transition policies, have created uncertainty in global trade and investment flows.",
     content := "International financial markets have experienced significant volatility as major economies implement conflicting economic policies. The US Federal Reserve’s continued interest rate hikes, combined with China’s stimulus measures and Europe’s energy transition policies, have created uncertainty in global trade and investment flows.",
     country := "Global", category := "economic", severity := "medium",
     reliability := "confirmed", source := "Financial Times", timestamp := now - 20 },
   { headline := "Cybersecurity Threats Escalate Globally",
     lede := "Government agencies worldwide report a dramatic increase in sophisticated cyber attacks targeting critical infrastructure. Security experts warn that state-sponsored hacking groups have become more aggressive, with attacks on energy grids, financial systems, and government networks reaching unprecedented levels.",
     content := "Government agencies worldwide report a dramatic increase in sophisticated cyber attacks targeting critical infrastructure. Security experts warn that state-sponsored hacking groups have become more aggressive, with attacks on energy grids, financial systems, and government networks reaching unprecedented levels.",
     country := "Global", category := "cyber", severity := "high",
     reliability := "likely", source := "The New York Times", timestamp := now - 15 }]

/-- Country construction from reference data, world_brain.py:153. -/
def mk_country (cid : String) (d : CountryData) : Country :=
  { id := cid, name := d.name, gdp := d.gdp_2024, population := d.population,
    military_budget := d.military_budget, nuclear_warheads := d.nuclear_warheads,
    active_military := d.active_military, cyber_capability := d.cyber_capability,
    space_capability := d.space_capability, energy_balance := d.energy_balance,
    food_balance := d.food_balance, regime_type := d.regime_type, bloc := d.bloc,
    alliances := d.alliances, major_cities := d.major_cities,
    key_industries := d.key_industries }

/-- WorldBrain.initialize_world, world_brain.py:137, parameterized over the
external reference-data, leaders and indicator providers and the ambient
clock. `random.seed(seed)` only runs for a truthy seed (`if seed:` at
line 139); no other randomness is consumed (the initial news comes from the
deterministic fallback under the unavailable-narrator scenario, and the
start date resolution is external). -/
def initialize_world (seed : Option Int) (country_data : List (String × CountryData))
    (leaders : List (String × LeaderData)) (global_indicators : List (String × ℚ))
    (start_date now : Int) (s : Nat) : WorldState × Nat :=
  let s0 := if pyTruthy seed then seedPRNG (seed.getD 0) else s
  let countries := country_data.map (fun p => (p.1, mk_country p.1 p.2))
  let doctrines := leaders.foldl
    (fun acc p =>
      let cid := p.2.country
      if (alookup cid countries).isSome then
        dinsert cid
          { country_id := cid, name := p.2.name ++ " Doctrine",
            description := "Strategic doctrine under " ++ p.2.name,
            aggression_level := calculate_aggression p.2,
            cooperation_level := calculate_cooperation p.2,
            risk_tolerance := calculate_risk_tolerance p.2 } acc
      else acc) []
  let keys := countries.map Prod.fst
  let relations := keys.foldl
    (fun acc ka => keys.foldl
      (fun acc2 kb =>
        if ka < kb then
          match alookup ka countries, alookup kb countries with
          | some ca, some cb => dinsert (ka ++ "_" ++ kb) (initialize_relation ca cb) acc2
          | _, _ => acc2
        else acc2) acc) []
  let initial_map_state := create_map_state countries relations now
  ({ timestamp := now, current_date := start_date, week_number := 1,
     countries := countries, doctrines := doctrines, relations := relations,
     actions := [], outcomes := [], news := generate_initial_news now,
     map_states := [initial_map_state], map_state := initial_map_state,
     global_indicators := global_indicators }, s0)

/-- N interactive steps over a stored world state: each step runs the
mutating tick pipeline (whose effects persist on the stored state even
though the snapshot call that follows raises, see `tick_map_state_call`);
the produced Action/Outcome/Relation sequences live in the returned state. -/
def run_steps : Nat → WorldState → Nat → WorldState × Nat
  | 0, ws, s => (ws, s)
  | n + 1, ws, s =>
    match tickCore ws s with
    | Except.ok (ws2, s2) => run_steps n ws2 s2
    | Except.error _ => (ws, s)

end WB

namespace PS

/-- HistoricalPattern enum, models.py:957. -/
inductive HistoricalPattern where
  | roman_decline
  | persian_expansion
  | byzantine_diplomacy
  | mongol_conquest
  | ottoman_decline
  | cold_war_escalation
  | napoleonic_wars
  | world_war_escalation
deriving Repr, DecidableEq

/-- Enum string value of a HistoricalPattern (models.py:957). -/
def HistoricalPattern.value : HistoricalPattern → String
  | roman_decline => "roman_decline"
  | persian_expansion => "persian_expansion"
  | byzantine_diplomacy => "byzantine_diplomacy"
  | mongol_conquest => "mongol_conquest"
  | ottoman_decline => "ottoman_decline"
  | cold_war_escalation => "cold_war_escalation"
  | napoleonic_wars => "napoleonic_wars"
  | world_war_escalation => "world_war_escalation"

/-- WorldEventType enum, models.py:967 (the members the projector uses). -/
inductive WorldEventType where
  | diplomatic_crisis
  | military_escalation
  | economic_collapse
  | alliance_shift
  | regime_change
  | nuclear_threat
  | territorial_conquest
  | economic_sanctions
  | civil_war
  | natural_disaster
  | technological_breakthrough
  | intelligence_revelation
deriving Repr, DecidableEq

/-- Country entry of the predictive WorldState.countries dict, as
`_get_current_world_state` (predictive_simulation_service.py:313) builds it. -/
structure PCountry where
  faction : String
  morale : ℚ
  economic_strength : ℚ
  military_strength : ℚ
  diplomatic_influence : ℚ
  nuclear_capability : Bool
  allies : List String
deriving Repr, DecidableEq

/-- Conflict entry of the predictive WorldState.conflicts list. -/
structure Conflict where
  type : String
  location : String
  participants : List String
  intensity : ℚ
  start_date : String
deriving Repr, DecidableEq

/-- Predictive WorldState, models.py:999 (the fields the projector touches;
dates are integer day counts). -/
structure WorldState where
  date : Int
  countries : List (String × PCountry)
  alliances : List (String × List String)
  conflicts : List Conflict
  economic_indicators : List (String × ℚ)
  world_stability_index : ℚ
  nuclear_threat_level : ℚ
deriving Repr, DecidableEq

/-- TimelineEvent, models.py:981. `event_id` strings come from a counter
standing in for the opaque uuid4 identifiers. -/
structure TimelineEvent where
  event_id : String
  date : Int
  event_type : WorldEventType
  title : String
  description : String
  affected_countries : List String
  historical_pattern : Option HistoricalPattern := none
  probability : ℚ := 0.5
  impact_magnitude : ℚ := 0.5
  triggers : List String := []
  consequences : List String := []
  ai_reasoning : String
deriving Repr, DecidableEq

/-- Pattern catalogue entry, predictive_simulation_service.py:85. -/
structure PatternConfig where
  description : String
  modern_parallel : String
  indicators : List String
  timeline : String
  confidence : ℚ
deriving Repr, DecidableEq

/-- PredictiveSimulationService._initialize_historical_patterns,
predictive_simulation_service.py:85, in dict insertion order. -/
def historical_patterns : List (HistoricalPattern × PatternConfig) :=
  [(HistoricalPattern.roman_decline,
    { description := "Pattern of imperial overreach, internal decay, and external pressure",
      modern_parallel := "US global hegemony facing challenges from rising powers",
      indicators := ["military overextension", "economic decline", "internal division", "external threats"],
      timeline := "5-15 years", confidence := 0.8 }),
   (HistoricalPattern.persian_expansion,
    { description := "Regional power expanding influence through proxy wars and alliances",
      modern_parallel := "Iran’s regional ambitions and proxy network",
      indicators := ["proxy warfare", "alliance building", "regional influence", "nuclear ambitions"],
      timeline := "2-8 years", confidence := 0.7 }),
   (HistoricalPattern.byzantine_diplomacy,
    { description := "Complex diplomatic balancing between multiple powers",
      modern_parallel := "EU’s balancing act between US, Russia, and China",
      indicators := ["diplomatic complexity", "multiple alliances", "economic interdependence", "strategic ambiguity"],
      timeline := "3-10 years", confidence := 0.6 }),
   (HistoricalPattern.mongol_conquest,
    { description := "Rapid expansion through superior technology and organization",
      modern_parallel := "China’s Belt and Road Initiative and technological advancement",
      indicators := ["economic expansion", "technological superiority", "infrastructure projects", "military modernization"],
      timeline := "10-25 years", confidence := 0.7 }),
   (HistoricalPattern.ottoman_decline,
    { description := "Gradual decline of empire through internal weakness and external pressure",
      modern_parallel := "Russia’s current trajectory and internal challenges",
      indicators := ["economic stagnation", "military overreach", "internal corruption", "external isolation"],
      timeline := "5-20 years", confidence := 0.6 }),
   (HistoricalPattern.cold_war_escalation,
    { description := "Nuclear standoff between superpowers with proxy conflicts",
      modern_parallel := "US-China-Russia nuclear triangle",
      indicators := ["nuclear posturing", "proxy conflicts", "ideological competition", "arms race"],
      timeline := "1-5 years", confidence := 0.8 })]

/-- Python `d.get(key, default)` over the economic indicators dict. -/
def indicatorD (ws : WorldState) (key : String) (dflt : ℚ) : ℚ :=
  (alookup key ws.economic_indicators).getD dflt

/-- PredictiveSimulationService._calculate_pattern_probability,
predictive_simulation_service.py:491. Missing country entries fall back to
the dict-get defaults of the source. -/
def calculate_pattern_probability (pattern : HistoricalPattern) (ws : WorldState) : ℚ :=
  let base : ℚ := 0.5
  let p :=
    if pattern = HistoricalPattern.roman_decline then
      let econ := ((alookup "US" ws.countries).map PCountry.economic_strength).getD 0.8
      let mil := ((alookup "US" ws.countries).map PCountry.military_strength).getD 0.9
      let b1 := if econ < 0.7 then base + 0.2 else base
      let b2 := if mil < 0.8 then b1 + 0.1 else b1
      if ws.world_stability_index < 0.6 then b2 + 0.2 else b2
    else if pattern = HistoricalPattern.cold_war_escalation then
      let b1 := if ws.nuclear_threat_level > 0.5 then base + 0.3 else base
      if ((ws.countries.map Prod.snd).filter PCountry.nuclear_capability).length ≥ 3 then
        b1 + 0.2
      else b1
    else if pattern = HistoricalPattern.persian_expansion then
      let infl := ((alookup "IR" ws.countries).map PCountry.diplomatic_influence).getD 0.4
      let b1 := if infl > 0.5 then base + 0.2 else base
      if "IR" ∈ (alookup "SCO" ws.alliances).getD [] then b1 + 0.2 else b1
    else base
  min p 1

/-- Active-pattern record, predictive_simulation_service.py:483. -/
structure ActivePattern where
  pattern : HistoricalPattern
  probability : ℚ
  config : PatternConfig
deriving Repr, DecidableEq

/-- PredictiveSimulationService._identify_active_patterns,
predictive_simulation_service.py:474: patterns scoring above 0.3, in
catalogue order. -/
def identify_active_patterns (ws : WorldState) : List ActivePattern :=
  (historical_patterns.map
    (fun p => ActivePattern.mk p.1 (calculate_pattern_probability p.1 ws) p.2)).filter
    (fun ap => ap.probability > 0.3)

/-- Python `max(xs, key=...)`: the first element attaining the maximum
(later elements replace the best only when strictly greater). -/
def py_max_by {α : Type} (f : α → ℚ) : α → List α → α
  | best, [] => best
  | best, x :: xs => py_max_by f (if f x > f best then x else best) xs

/-- Opaque unique event identifier: stands in for `str(uuid.uuid4())`,
threaded as a counter. -/
def mk_uuid (u : Nat) : String := "uuid-" ++ toString u

/-- Drawn event types of `_create_roman_decline_event`,
predictive_simulation_service.py:539, in list order. -/
def roman_event_types : List WorldEventType :=
  [WorldEventType.economic_collapse, WorldEventType.military_escalation,
   WorldEventType.diplomatic_crisis, WorldEventType.alliance_shift]

/-- PredictiveSimulationService._create_roman_decline_event,
predictive_simulation_service.py:537. The source annotates a TimelineEvent
return but only handles two of the four drawn event types; for the other
two it falls off the end of the function and returns Python None, embedded
here as `none`. The uuid is only consumed in the constructing branches. -/
def create_roman_decline_event (date : Int) (u s : Nat) :
    Option TimelineEvent × Nat × Nat :=
  let (event_type, s1) := randChoice roman_event_types WorldEventType.economic_collapse s
  if event_type = WorldEventType.economic_collapse then
    (some { event_id := mk_uuid u, date := date, event_type := event_type,
            title := "US Dollar Crisis: Global Reserve Currency Under Threat",
            description := "China and Russia announce new BRICS currency initiative, challenging US dollar dominance. Major economies begin diversifying reserves.",
            affected_countries := ["US", "CN", "RU", "EU"],
            historical_pattern := some HistoricalPattern.roman_decline,
            probability := 0.7, impact_magnitude := 0.8,
            ai_reasoning := "Following Roman pattern: economic decline precedes military weakness. US dollar dominance mirrors Roman currency system." },
     u + 1, s1)
  else if event_type = WorldEventType.military_escalation then
    (some { event_id := mk_uuid u, date := date, event_type := event_type,
            title := "NATO Expansion Crisis: Finland and Sweden Join Amid Russian Threats",
            description := "Russia threatens nuclear response as Finland and Sweden officially join NATO, creating new flashpoint in Baltic region.",
            affected_countries := ["RU", "US", "EU", "FI", "SE"],
            historical_pattern := some HistoricalPattern.roman_decline,
            probability := 0.6, impact_magnitude := 0.7,
            ai_reasoning := "Roman pattern: overextension of military commitments leads to strategic vulnerability." },
     u + 1, s1)
  else
    (none, u, s1)

/-- PredictiveSimulationService._create_cold_war_event,
predictive_simulation_service.py:575. -/
def create_cold_war_event (date : Int) (u s : Nat) :
    Option TimelineEvent × Nat × Nat :=
  (some { event_id := mk_uuid u, date := date,
          event_type := WorldEventType.nuclear_threat,
          title := "Nuclear Posturing Escalates: Russia Conducts Strategic Bomber Flights",
          description := "Russia conducts nuclear-capable bomber flights near NATO borders, while US deploys additional missile defense systems to Eastern Europe.",
          affected_countries := ["RU", "US", "EU"],
          historical_pattern := some HistoricalPattern.cold_war_escalation,
          probability := 0.8, impact_magnitude := 0.9,
          ai_reasoning := "Cold War pattern: nuclear posturing and missile defense deployment creates dangerous escalation cycle." },
   u + 1, s)

/-- PredictiveSimulationService._create_persian_expansion_event,
predictive_simulation_service.py:590. -/
def create_persian_expansion_event (date : Int) (u s : Nat) :
    Option TimelineEvent × Nat × Nat :=
  (some { event_id := mk_uuid u, date := date,
          event_type := WorldEventType.territorial_conquest,
          title := "Iran Expands Regional Influence: Proxy Forces Advance in Yemen",
          description := "Iran-backed Houthi forces gain significant territory in Yemen, establishing control over key shipping lanes in Red Sea.",
          affected_countries := ["IR", "SA", "US", "YE"],
          historical_pattern := some HistoricalPattern.persian_expansion,
          probability := 0.6, impact_magnitude := 0.6,
          ai_reasoning := "Persian pattern: regional expansion through proxy warfare and strategic positioning." },
   u + 1, s)

/-- PredictiveSimulationService._create_generic_event,
predictive_simulation_service.py:605. -/
def create_generic_event (date : Int) (pattern : HistoricalPattern) (ws : WorldState)
    (u s : Nat) : Option TimelineEvent × Nat × Nat :=
  (some { event_id := mk_uuid u, date := date,
          event_type := WorldEventType.diplomatic_crisis,
          title := "Diplomatic Crisis: " ++ pyTitle (pattern.value.replace "_" " ") ++ " Pattern Emerges",
          description := "Historical " ++ pattern.value ++ " pattern manifests in modern geopolitics, creating new diplomatic challenges.",
          affected_countries := (ws.countries.map Prod.fst).take 3,
          historical_pattern := some pattern,
          probability := 0.5, impact_magnitude := 0.5,
          ai_reasoning := "Historical pattern " ++ pattern.value ++ " indicates this type of event is likely at this stage." },
   u + 1, s)

/-- PredictiveSimulationService._create_event_from_pattern,
predictive_simulation_service.py:522. -/
def create_event_from_pattern (date : Int) (ap : ActivePattern) (ws : WorldState)
    (u s : Nat) : Option TimelineEvent × Nat × Nat :=
  if ap.pattern = HistoricalPattern.roman_decline then
    create_roman_decline_event date u s
  else if ap.pattern = HistoricalPattern.cold_war_escalation then
    create_cold_war_event date u s
  else if ap.pattern = HistoricalPattern.persian_expansion then
    create_persian_expansion_event date u s
  else
    create_generic_event date ap.pattern ws u s

/-- PredictiveSimulationService._generate_next_event,
predictive_simulation_service.py:458: no event when no pattern scores above
0.3, otherwise synthesize from the highest-scoring (first-maximal) one. -/
def generate_next_event (date : Int) (ws : WorldState) (u s : Nat) :
    Option TimelineEvent × Nat × Nat :=
  match identify_active_patterns ws with
  | [] => (none, u, s)
  | h :: t => create_event_from_pattern date (py_max_by ActivePattern.probability h t) ws u s

/-- PredictiveSimulationService._update_world_state,
predictive_simulation_service.py:620: copy the state at the event date and
apply the category-specific deltas. -/
def update_world_state (current : WorldState) (e : TimelineEvent) : WorldState :=
  let new_state := { current with date := e.date }
  if e.event_type = WorldEventType.nuclear_threat then
    { new_state with
      nuclear_threat_level := min 1 (new_state.nuclear_threat_level + 0.2),
      world_stability_index := max 0 (new_state.world_stability_index - 0.1) }
  else if e.event_type = WorldEventType.economic_collapse then
    { new_state with
      economic_indicators := dinsert "global_gdp_growth"
        (max (-0.05) (indicatorD new_state "global_gdp_growth" 0 - 0.02))
        new_state.economic_indicators,
      world_stability_index := max 0 (new_state.world_stability_index - 0.15) }
  else if e.event_type = WorldEventType.military_escalation then
    { new_state with
      world_stability_index := max 0 (new_state.world_stability_index - 0.1),
      nuclear_threat_level := min 1 (new_state.nuclear_threat_level + 0.1) }
  else new_state

/-- PredictiveSimulationService._check_end_conditions,
predictive_simulation_service.py:647. -/
def check_end_conditions (ws : WorldState) : Bool :=
  if ws.nuclear_threat_level > 0.9 then true
  else if indicatorD ws "global_gdp_growth" 0 < -0.1 then true
  else if ws.world_stability_index < 0.1 then true
  else false

/-- PredictiveSimulationService._determine_end_scenario,
predictive_simulation_service.py:663. -/
def determine_end_scenario (ws : WorldState) : String :=
  if ws.nuclear_threat_level > 0.9 then
    "Nuclear War: Multiple nuclear exchanges between major powers lead to global devastation"
  else if indicatorD ws "global_gdp_growth" 0 < -0.1 then
    "Economic Collapse: Global economic system collapses, leading to widespread chaos and conflict"
  else if ws.world_stability_index < 0.1 then
    "Global Chaos: Complete breakdown of international order leads to widespread conflict"
  else
    "Unknown End: Simulation ended under unclear circumstances"

/-- Time advance of the projector loop, predictive_simulation_service.py:449:
one day while the timeline is still empty, a uniform 1-30 days once an
event exists (the conditional expression consumes no randomness in the
empty case). -/
def days_advance (has_events : Bool) (s : Nat) : Int × Nat :=
  if has_events then randInt 1 30 s else (1, s)

/-- PredictiveSimulation, models.py:1014 (the fields the projector writes;
bookkeeping fields the core never touches are omitted). -/
structure Simulation where
  simulation_id : String
  mode : String := "observe_the_end"
  start_date : Int
  predicted_end_date : Option Int := none
  end_scenario : Option String := none
  timeline_events : List TimelineEvent := []
  world_states : List WorldState := []
deriving Repr, DecidableEq

/-- Result of the projector loop: the locals `timeline_events` and
`world_states` plus the two simulation fields the break branch assigns. -/
structure LoopResult where
  timeline_events : List TimelineEvent
  world_states : List WorldState
  predicted_end_date : Option Int := none
  end_scenario : Option String := none
deriving Repr, DecidableEq

/-- Placeholder for `world_states[-1]` on an empty list (Python would raise
IndexError; the loop starts with a one-element history so the placeholder
is never selected on the source's own runs). -/
def worldStateNone : WorldState :=
  { date := 0, countries := [], alliances := [], conflicts := [],
    economic_indicators := [], world_stability_index := 0.7,
    nuclear_threat_level := 0.3 }

/-- Loop of PredictiveSimulationService._run_predictive_simulation,
predictive_simulation_service.py:431-450. Fuel-indexed: each iteration
advances the clock by at least one day, so fuel of one more than the
remaining horizon days never runs out (fuel exhaustion and horizon exit
return the same shape). -/
def run_sim_loop : Nat → Int → Int → List TimelineEvent → List WorldState →
    Nat → Nat → LoopResult
  | 0, _, _, events, states, _, _ => ⟨events, states, none, none⟩
  | fuel + 1, current_date, end_date, events, states, u, s =>
    if current_date < end_date then
      let (oev, u1, s1) := generate_next_event current_date (states.getLastD worldStateNone) u s
      match oev with
      | some ev =>
        let events2 := events ++ [ev]
        let new_ws := update_world_state (states.getLastD worldStateNone) ev
        let states2 := states ++ [new_ws]
        if check_end_conditions new_ws then
          ⟨events2, states2, some current_date, some (determine_end_scenario new_ws)⟩
        else
          let (adv, s2) := days_advance (!events2.isEmpty) s1
          run_sim_loop fuel (current_date + adv) end_date events2 states2 u1 s2
      | none =>
        let (adv, s2) := days_advance (!events.isEmpty) s1
        run_sim_loop fuel (current_date + adv) end_date events states u1 s2
    else ⟨events, states, none, none⟩

/-- PredictiveSimulationService._run_predictive_simulation,
predictive_simulation_service.py:419: ten-year horizon from the start date,
history seeded with `world_states[0]`, results written back onto the
simulation record. -/
def run_predictive_simulation (sim : Simulation) (u s : Nat) : Simulation :=
  let current_date := sim.start_date
  let end_date := current_date + 3650
  let r := run_sim_loop 3651 current_date end_date []
    [sim.world_states.getD 0 worldStateNone] u s
  { sim with
    predicted_end_date := r.predicted_end_date,
    end_scenario := r.end_scenario,
    timeline_events := r.timeline_events,
    world_states := r.world_states }

/-- PredictiveSimulationService._get_current_world_state,
predictive_simulation_service.py:313: the seeded baseline conditions. -/
def get_current_world_state (now : Int) : WorldState :=
  { date := now,
    countries :=
      [("US", { faction := "US", morale := 0.7, economic_strength := 0.8,
                military_strength := 0.9, diplomatic_influence := 0.8,
                nuclear_capability := true, allies := ["GB", "FR", "DE", "JP", "CA", "AU"] }),
       ("CN", { faction := "CN", morale := 0.8, economic_strength := 0.9,
                military_strength := 0.7, diplomatic_influence := 0.6,
                nuclear_capability := true, allies := ["RU", "KP", "PK"] }),
       ("RU", { faction := "RU", morale := 0.6, economic_strength := 0.4,
                military_strength := 0.8, diplomatic_influence := 0.5,
                nuclear_capability := true, allies := ["CN", "IR", "BY"] }),
       ("EU", { faction := "EU", morale := 0.7, economic_strength := 0.8,
                military_strength := 0.6, diplomatic_influence := 0.7,
                nuclear_capability := false, allies := ["US", "GB", "CA"] }),
       ("IR", { faction := "IR", morale := 0.6, economic_strength := 0.3,
                military_strength := 0.5, diplomatic_influence := 0.4,
                nuclear_capability := true, allies := ["RU", "SY", "YE"] }),
       ("IL", { faction := "IL", morale := 0.8, economic_strength := 0.7,
                military_strength := 0.8, diplomatic_influence := 0.5,
                nuclear_capability := true, allies := ["US", "GB"] }),
       ("KP", { faction := "KP", morale := 0.5, economic_strength := 0.2,
                military_strength := 0.6, diplomatic_influence := 0.2,
                nuclear_capability := true, allies := ["CN", "RU"] })],
    alliances :=
      [("NATO", ["US", "GB", "FR", "DE", "CA", "IT", "ES", "PL"]),
       ("SCO", ["CN", "RU", "IN", "PK", "UZ", "KG"]),
       ("BRICS", ["CN", "RU", "IN", "BR", "ZA"]),
       ("OPEC+", ["RU", "SA", "IR", "IQ", "AE"])],
    conflicts :=
      [{ type := "proxy_war", location := "Ukraine", participants := ["RU", "US", "EU"],
         intensity := 0.7, start_date := "2022-02-24" },
       { type := "diplomatic_crisis", location := "Taiwan Strait", participants := ["CN", "US", "TW"],
         intensity := 0.6, start_date := "2022-08-01" }],
    economic_indicators :=
      [("global_gdp_growth", 0.03), ("inflation_rate", 0.05),
       ("oil_price", 85.0), ("usd_strength", 0.8), ("cny_strength", 0.7)],
    world_stability_index := 0.6,
    nuclear_threat_level := 0.4 }

/-- PredictiveSimulationService.create_observe_the_end_simulation,
predictive_simulation_service.py:291, with the background task run to
completion: initial state seeded from baseline data, then the projector. -/
def create_observe_the_end_simulation (sim_id : String) (now : Int) (u s : Nat) : Simulation :=
  run_predictive_simulation
    { simulation_id := sim_id, start_date := now,
      world_states := [get_current_world_state now] } u s

end PS

/-! Concrete instances used as inputs of witnesses, failing inputs and
counterexamples. -/

/-- Empty map snapshot. -/
def wbEmptyMap : WB.MapState := ⟨0, [], [], 0, []⟩

/-- Minimal interactive world state (no countries): the smallest input on
which a tick can be evaluated end to end. -/
def wbEmptyWorld : WB.WorldState :=
  { timestamp := 0, current_date := 0, week_number := 1, countries := [], doctrines := [],
    relations := [], actions := [], outcomes := [], news := [], map_states := [wbEmptyMap],
    map_state := wbEmptyMap, global_indicators := [] }

/-- Reference-data record for the two-country replay experiment (claim C2). -/
def c2data (nm bloc : String) : WB.CountryData :=
  { name := nm, gdp_2024 := 1000, population := 1000, military_budget := 10,
    nuclear_warheads := 0, active_military := 100, cyber_capability := 10,
    space_capability := 10, energy_balance := 0, food_balance := 0,
    regime_type := "democracy", bloc := bloc, alliances := [], major_cities := [],
    key_industries := [] }

/-- Two-country reference data for claim C2. -/
def c2cd : List (String × WB.CountryData) := [("a", c2data "A" "x"), ("b", c2data "B" "y")]

/-- One neutral leader (all doctrine values 50) for country "a", claim C2. -/
def c2ld : List (String × WB.LeaderData) :=
  [("l1", { country := "a", name := "L", personality_traits := [], recent_actions := [],
            relationships := [], controversy_level := 50 })]

/-- One step from seed 0 with ambient PRNG state `s`, claim C2. -/
def c2run (s : Nat) : WB.WorldState × Nat :=
  WB.run_steps 1 (WB.initialize_world (some 0) c2cd c2ld [] 0 0 s).1
    (WB.initialize_world (some 0) c2cd c2ld [] 0 0 s).2

/-- Relation seeded between countries "a" and "b" for claim C4. -/
def c4rel : WB.Relation :=
  { country_a := "a", country_b := "b", trust_level := 0, trade_volume := 0,
    military_cooperation := 0, diplomatic_relations := 0 }

/-- Action whose actor follows its target lexicographically, claim C4. -/
def c4action : WB.Action :=
  { id := "x", actor_id := "b", target_id := some "a", action_type := "diplomatic",
    description := "", intensity := 60, timestamp := 0, success_probability := 0.7 }

/-- Successful diplomatic outcome with impact 10, claim C4. -/
def c4outcome : WB.Outcome :=
  { action_id := "x", success := true, impact_magnitude := 10, diplomatic_impact := 10 }

/-- World state holding only the "a_b" relation and the "b"-to-"a" action,
claim C4. -/
def c4ws : WB.WorldState :=
  { wbEmptyWorld with relations := [("a_b", c4rel)], actions := [c4action] }

/-- Identical-profile countries for the relation-seeding scenario, claim C9. -/
def c9country (cid : String) : WB.Country :=
  { id := cid, name := cid, gdp := 1000, population := 1000, military_budget := 10,
    nuclear_warheads := 0, active_military := 100, cyber_capability := 10,
    space_capability := 10, energy_balance := 0, food_balance := 0,
    regime_type := "democracy", bloc := "west", alliances := ["NATO"],
    major_cities := [], key_industries := [] }

/-- Predictive US profile on which the Roman-decline archetype strictly
dominates every other score, claim C6. -/
def c6us : PS.PCountry :=
  { faction := "US", morale := 0.7, economic_strength := 0.6,
    military_strength := 0.7, diplomatic_influence := 0.8,
    nuclear_capability := false, allies := [] }

/-- Predictive world state on which the Roman-decline archetype is selected,
claim C6. -/
def c6ws : PS.WorldState :=
  { date := 0, countries := [("US", c6us)], alliances := [], conflicts := [],
    economic_indicators := [("global_gdp_growth", 0.30)],
    world_stability_index := 50.50, nuclear_threat_level := 0.4 }

/-- Predictive Iran profile on which the Persian-expansion archetype strictly
dominates every other score, claim C8. -/
def c8ir : PS.PCountry :=
  { faction := "IR", morale := 0.6, economic_strength := 0.3,
    military_strength := 0.5, diplomatic_influence := 0.6,
    nuclear_capability := true, allies := [] }

/-- Family of predictive world states (parameterized by date) on which every
step synthesizes a territorial-conquest event that leaves all indicators
unchanged, so no end condition ever fires and the run reaches its horizon,
claim C8. -/
def c8w (d : Int) : PS.WorldState :=
  { date := d, countries := [("IR", c8ir)], alliances := [("SCO", ["IR"])], conflicts := [],
    economic_indicators := [("global_gdp_growth", 0.30)],
    world_stability_index := 0.6, nuclear_threat_level := 0.4 }

/-- The persian-expansion event synthesized on every step of the `c8w` run. -/
def c8ev (d : Int) (u : Nat) : PS.TimelineEvent :=
  { event_id := PS.mk_uuid u, date := d,
    event_type := PS.WorldEventType.territorial_conquest,
    title := "Iran Expands Regional Influence: Proxy Forces Advance in Yemen",
    description := "Iran-backed Houthi forces gain significant territory in Yemen, establishing control over key shipping lanes in Red Sea.",
    affected_countries := ["IR", "SA", "US", "YE"],
    historical_pattern := some PS.HistoricalPattern.persian_expansion,
    probability := 0.6, impact_magnitude := 0.6,
    ai_reasoning := "Persian pattern: regional expansion through proxy warfare and strategic positioning." }

/-- The horizon-reaching predictive run of claim C8. -/
def c8sim : PS.Simulation :=
  PS.run_predictive_simulation
    { simulation_id := "s", start_date := 0, world_states := [c8w 0] } 0 0


/-- Predictive world state with the nuclear and stability end conditions
holding simultaneously (claim C3). -/
def c3ws : PS.WorldState :=
  { date := 0, countries := [], alliances := [], conflicts := [],
    economic_indicators := [], world_stability_index := 0,
    nuclear_threat_level := 1 }

/-- Action whose actor precedes its target lexicographically, so the seeded
relation key exists (claim C4 witness). -/
def c4good_action : WB.Action :=
  { id := "y", actor_id := "a", target_id := some "b", action_type := "diplomatic",
    description := "", intensity := 60, timestamp := 0, success_probability := 0.7 }

/-- Successful diplomatic outcome for the C4 witness. -/
def c4good_outcome : WB.Outcome :=
  { action_id := "y", success := true, impact_magnitude := 10, diplomatic_impact := 10 }

/-- World state for the C4 witness: the "a_b" relation exists and the action
addresses it. -/
def c4good_ws : WB.WorldState :=
  { wbEmptyWorld with relations := [("a_b", c4rel)], actions := [c4good_action] }

/-! Helper lemmas shared by the claim theorems. -/

theorem alookup_dinsert_self {α : Type} (k : String) (v : α) (l : List (String × α)) :
    alookup k (dinsert k v l) = some v := by
  induction l with
  | nil => simp [dinsert, alookup]
  | cons h t ih =>
    obtain ⟨k2, v2⟩ := h
    by_cases hk : k2 = k
    · simp [dinsert, hk, alookup]
    · simp [dinsert, hk, alookup, ih]

theorem mem_dinsert {α : Type} {q : String × α} {k : String} {v : α}
    {l : List (String × α)} (hq : q ∈ dinsert k v l) : q.2 = v ∨ q ∈ l := by
  induction l with
  | nil => simp [dinsert] at hq; simp [hq]
  | cons h t ih =>
    obtain ⟨k2, v2⟩ := h
    by_cases hk : k2 = k
    · simp [dinsert, hk] at hq
      rcases hq with hq | hq
      · left; simp [hq]
      · right; simp [hq]
    · simp [dinsert, hk] at hq
      rcases hq with hq | hq
      · right; simp [hq]
      · rcases ih hq with h2 | h2
        · left; exact h2
        · right; simp [h2]

theorem getLastD_append_one {α : Type} (l : List α) (a d : α) :
    (l ++ [a]).getLastD d = a := by
  induction l with
  | nil => rfl
  | cons h t ih => simp [List.getLastD, ih]

theorem randInt_bounds {a b : Int} (s : Nat) (h : a ≤ b) :
    a ≤ (randInt a b s).1 ∧ (randInt a b s).1 ≤ b := by
  have hne : b - a + 1 ≠ 0 := by omega
  have hpos : (0 : Int) < b - a + 1 := by omega
  have h1 := Int.emod_nonneg ((rngNext s : Nat) : Int) hne
  have h2 := Int.emod_lt_of_pos ((rngNext s : Nat) : Int) hpos
  simp only [randInt]
  omega

theorem days_advance_false (s : Nat) : (PS.days_advance false s).1 = 1 := rfl

theorem days_advance_true (s : Nat) :
    1 ≤ (PS.days_advance true s).1 ∧ (PS.days_advance true s).1 ≤ 30 := by
  simpa [PS.days_advance] using randInt_bounds s (by omega : (1 : Int) ≤ 30)


theorem create_roman_decline_event_date {dc : Int} {u s : Nat}
    {ev : PS.TimelineEvent} {u2 s2 : Nat}
    (h : PS.create_roman_decline_event dc u s = (some ev, u2, s2)) : ev.date = dc := by
  unfold PS.create_roman_decline_event at h
  cases hc : randChoice PS.roman_event_types PS.WorldEventType.economic_collapse s with
  | mk et s1 =>
    rw [hc] at h
    dsimp only at h
    split_ifs at h <;> simp_all <;> simp [← h.1]

theorem create_event_from_pattern_date {dc : Int} {ap : PS.ActivePattern}
    {ws : PS.WorldState} {u s : Nat} {ev : PS.TimelineEvent} {u2 s2 : Nat}
    (h : PS.create_event_from_pattern dc ap ws u s = (some ev, u2, s2)) : ev.date = dc := by
  unfold PS.create_event_from_pattern at h
  split_ifs at h
  · exact create_roman_decline_event_date h
  · unfold PS.create_cold_war_event at h
    simp at h
    simp [← h.1]
  · unfold PS.create_persian_expansion_event at h
    simp at h
    simp [← h.1]
  · unfold PS.create_generic_event at h
    simp at h
    simp [← h.1]

theorem generate_next_event_date {dc : Int} {ws : PS.WorldState} {u s : Nat}
    {ev : PS.TimelineEvent} {u2 s2 : Nat}
    (h : PS.generate_next_event dc ws u s = (some ev, u2, s2)) : ev.date = dc := by
  unfold PS.generate_next_event at h
  cases hip : PS.identify_active_patterns ws with
  | nil => rw [hip] at h; simp at h
  | cons hd tl =>
    rw [hip] at h
    exact create_event_from_pattern_date h


theorem run_sim_loop_dates_chain (fuel : Nat) :
    ∀ (dc ed : Int) (evs : List PS.TimelineEvent) (st : List PS.WorldState) (u s : Nat),
    List.Chain' (fun x y => x < y) (evs.map PS.TimelineEvent.date) →
    (∀ e ∈ evs, e.date < dc) →
    List.Chain' (fun x y => x < y)
      ((PS.run_sim_loop fuel dc ed evs st u s).timeline_events.map PS.TimelineEvent.date) := by
  induction fuel with
  | zero =>
    intro dc ed evs st u s hchain hlt
    simpa [PS.run_sim_loop] using hchain
  | succ n ih =>
    intro dc ed evs st u s hchain hlt
    unfold PS.run_sim_loop
    by_cases hcd : dc < ed
    · simp only [if_pos hcd]
      rcases hgen : PS.generate_next_event dc (st.getLastD PS.worldStateNone) u s with
        ⟨oev, u1, s1⟩
      dsimp only
      cases oev with
      | none =>
        rcases hadv : PS.days_advance (!evs.isEmpty) s1 with ⟨adv, s2⟩
        dsimp only
        have hadv1 : 1 ≤ adv := by
          cases hne : (!evs.isEmpty) with
          | false => rw [hne] at hadv; simp [PS.days_advance] at hadv; omega
          | true =>
            rw [hne] at hadv
            have := days_advance_true s1
            rw [hadv] at this
            exact this.1
        exact ih (dc + adv) ed evs st u1 s2 hchain
          (fun e he => lt_of_lt_of_le (hlt e he) (by omega))
      | some ev =>
        dsimp only
        have hdate : ev.date = dc := generate_next_event_date hgen
        have hchain2 :
            List.Chain' (fun x y => x < y) ((evs ++ [ev]).map PS.TimelineEvent.date) := by
          rw [List.map_append, List.chain'_append]
          refine ⟨hchain, by simp, ?_⟩
          intro x hx y hy
          simp at hy
          subst hy
          rw [hdate]
          rcases List.mem_getLast?_eq_getLast hx with ⟨hne2, hxe⟩
          have hxmem : x ∈ evs.map PS.TimelineEvent.date := hxe ▸ List.getLast_mem hne2
          rcases List.mem_map.1 hxmem with ⟨e, he, hex⟩
          rw [← hex]
          exact hlt e he
        rcases hend : PS.check_end_conditions
            (PS.update_world_state (st.getLastD PS.worldStateNone) ev) with _ | _
        · simp only [hend, Bool.false_eq_true, if_false]
          rcases hadv : PS.days_advance (!(evs ++ [ev]).isEmpty) s1 with ⟨adv, s2⟩
          dsimp only
          have hadv1 : 1 ≤ adv := by
            have hne3 : (!(evs ++ [ev]).isEmpty) = true := by simp
            rw [hne3] at hadv
            have := days_advance_true s1
            rw [hadv] at this
            exact this.1
          refine ih (dc + adv) ed (evs ++ [ev]) _ u1 s2 hchain2 ?_
          intro e he
          rcases List.mem_append.1 he with he2 | he2
          · exact lt_of_lt_of_le (hlt e he2) (by omega)
          · simp at he2
            subst he2
            rw [hdate]
            omega
        · simpa using hchain2
    · simp only [if_neg hcd]
      exact hchain


theorem getLastD_mem_or {α : Type} (l : List α) (d : α) :
    l.getLastD d = d ∨ l.getLastD d ∈ l := by
  cases l with
  | nil => left; rfl
  | cons a t =>
    right
    rw [List.getLastD_eq_getLast?,
      List.getLast?_eq_getLast_of_ne_nil (List.cons_ne_nil a t)]
    exact List.getLast_mem (List.cons_ne_nil a t)

theorem run_sim_loop_scenario (fuel : Nat) :
    ∀ (dc ed : Int) (evs : List PS.TimelineEvent) (st : List PS.WorldState) (u s : Nat),
    ((PS.run_sim_loop fuel dc ed evs st u s).end_scenario = none
      ∧ (PS.run_sim_loop fuel dc ed evs st u s).predicted_end_date = none)
    ∨ (∃ ws d, PS.check_end_conditions ws = true
        ∧ (PS.run_sim_loop fuel dc ed evs st u s).end_scenario
            = some (PS.determine_end_scenario ws)
        ∧ (PS.run_sim_loop fuel dc ed evs st u s).predicted_end_date = some d) := by
  induction fuel with
  | zero =>
    intro dc ed evs st u s
    left
    exact ⟨rfl, rfl⟩
  | succ n ih =>
    intro dc ed evs st u s
    unfold PS.run_sim_loop
    by_cases hcd : dc < ed
    · simp only [if_pos hcd]
      rcases hgen : PS.generate_next_event dc (st.getLastD PS.worldStateNone) u s with
        ⟨oev, u1, s1⟩
      cases oev with
      | none => exact ih _ ed evs st u1 _
      | some ev =>
        dsimp only
        rcases hend : PS.check_end_conditions
            (PS.update_world_state (st.getLastD PS.worldStateNone) ev) with _ | _
        · exact ih _ ed (evs ++ [ev]) _ u1 _
        · right
          exact ⟨PS.update_world_state (st.getLastD PS.worldStateNone) ev, dc, hend, rfl, rfl⟩
    · rw [if_neg hcd]
      exact Or.inl ⟨rfl, rfl⟩

theorem determine_of_check {ws : PS.WorldState} (h : PS.check_end_conditions ws = true) :
    PS.determine_end_scenario ws
      = "Nuclear War: Multiple nuclear exchanges between major powers lead to global devastation"
    ∨ PS.determine_end_scenario ws
      = "Economic Collapse: Global economic system collapses, leading to widespread chaos and conflict"
    ∨ PS.determine_end_scenario ws
      = "Global Chaos: Complete breakdown of international order leads to widespread conflict" := by
  unfold PS.check_end_conditions at h
  unfold PS.determine_end_scenario
  split_ifs at h ⊢ <;> simp_all

theorem gdp_update_ge {ws : PS.WorldState} (e : PS.TimelineEvent)
    (h : -(0.05 : ℚ) ≤ PS.indicatorD ws "global_gdp_growth" 0) :
    -(0.05 : ℚ) ≤ PS.indicatorD (PS.update_world_state ws e) "global_gdp_growth" 0 := by
  unfold PS.update_world_state
  split_ifs with h1 h2 h3
  · simpa [PS.indicatorD] using h
  · simp only [PS.indicatorD, alookup_dinsert_self, Option.getD_some]
    exact le_max_left _ _
  · simpa [PS.indicatorD] using h
  · simpa [PS.indicatorD] using h

theorem gdp_update_econ {ws : PS.WorldState} (e : PS.TimelineEvent)
    (h : e.event_type = PS.WorldEventType.economic_collapse) :
    PS.indicatorD (PS.update_world_state ws e) "global_gdp_growth" 0
      = max (-0.05) (PS.indicatorD ws "global_gdp_growth" 0 - 0.02) := by
  unfold PS.update_world_state
  simp [h, PS.indicatorD, alookup_dinsert_self]

theorem run_sim_loop_states_inv (fuel : Nat) :
    ∀ (dc ed : Int) (evs : List PS.TimelineEvent) (st : List PS.WorldState) (u s : Nat),
    (∀ ws ∈ st, -(0.05 : ℚ) ≤ PS.indicatorD ws "global_gdp_growth" 0) →
    ∀ ws ∈ (PS.run_sim_loop fuel dc ed evs st u s).world_states,
      -(0.05 : ℚ) ≤ PS.indicatorD ws "global_gdp_growth" 0 := by
  induction fuel with
  | zero =>
    intro dc ed evs st u s hst
    simpa [PS.run_sim_loop] using hst
  | succ n ih =>
    intro dc ed evs st u s hst
    unfold PS.run_sim_loop
    by_cases hcd : dc < ed
    · simp only [if_pos hcd]
      rcases hgen : PS.generate_next_event dc (st.getLastD PS.worldStateNone) u s with
        ⟨oev, u1, s1⟩
      have hlast : -(0.05 : ℚ) ≤ PS.indicatorD (st.getLastD PS.worldStateNone) "global_gdp_growth" 0 := by
        rcases getLastD_mem_or st PS.worldStateNone with hd | hm
        · rw [hd]
          norm_num [PS.indicatorD, PS.worldStateNone, alookup]
        · exact hst _ hm
      cases oev with
      | none => exact ih _ ed evs st u1 _ hst
      | some ev =>
        dsimp only
        have hnew := gdp_update_ge ev hlast
        have hst2 : ∀ ws ∈ st ++ [PS.update_world_state (st.getLastD PS.worldStateNone) ev],
            -(0.05 : ℚ) ≤ PS.indicatorD ws "global_gdp_growth" 0 := by
          intro ws hws
          rcases List.mem_append.1 hws with hws | hws
          · exact hst _ hws
          · rw [List.eq_of_mem_singleton hws]
            exact hnew
        rcases hend : PS.check_end_conditions
            (PS.update_world_state (st.getLastD PS.worldStateNone) ev) with _ | _
        · exact ih _ ed (evs ++ [ev]) _ u1 _ hst2
        · simpa using hst2
    · simp only [if_neg hcd]
      exact hst


theorem c8_prob_persian (d : Int) :
    PS.calculate_pattern_probability PS.HistoricalPattern.persian_expansion (c8w d) = 0.9 := by
  simp only [PS.calculate_pattern_probability, c8w, c8ir, alookup, String.reduceEq,
    reduceCtorEq]
  norm_num [min_def]

theorem c8_prob_other (p : PS.HistoricalPattern) (d : Int)
    (h : p ≠ PS.HistoricalPattern.persian_expansion) :
    PS.calculate_pattern_probability p (c8w d) = 0.5 := by
  cases p
  case persian_expansion => exact absurd rfl h
  all_goals simp only [PS.calculate_pattern_probability, c8w, c8ir, alookup,
    String.reduceEq, reduceCtorEq]
  all_goals norm_num [min_def]

theorem c8_generate (d dc : Int) (u s : Nat) :
    PS.generate_next_event dc (c8w d) u s = (some (c8ev dc u), u + 1, s) := by
  have h1 := c8_prob_persian d
  have r0 := c8_prob_other PS.HistoricalPattern.roman_decline d (by decide)
  have r2 := c8_prob_other PS.HistoricalPattern.byzantine_diplomacy d (by decide)
  have r3 := c8_prob_other PS.HistoricalPattern.mongol_conquest d (by decide)
  have r4 := c8_prob_other PS.HistoricalPattern.ottoman_decline d (by decide)
  have r5 := c8_prob_other PS.HistoricalPattern.cold_war_escalation d (by decide)
  unfold PS.generate_next_event PS.identify_active_patterns PS.historical_patterns
  simp only [List.map_cons, List.map_nil, h1, r0, r2, r3, r4, r5]
  norm_num [PS.py_max_by, PS.create_event_from_pattern, PS.create_persian_expansion_event,
    c8ev, reduceCtorEq]
  rw [if_neg (by decide), if_neg (by decide)]

theorem c8_update (d dc : Int) (u : Nat) :
    PS.update_world_state (c8w d) (c8ev dc u) = c8w dc := by with_unfolding_all rfl

theorem c8_check (d : Int) : PS.check_end_conditions (c8w d) = false := by
  with_unfolding_all rfl

theorem c8_loop (fuel : Nat) :
    ∀ (dc ed : Int) (evs : List PS.TimelineEvent) (st : List PS.WorldState)
      (u s : Nat) (d0 : Int),
    (PS.run_sim_loop fuel dc ed evs (st ++ [c8w d0]) u s).end_scenario = none
    ∧ (PS.run_sim_loop fuel dc ed evs (st ++ [c8w d0]) u s).predicted_end_date = none := by
  induction fuel with
  | zero =>
    intro dc ed evs st u s d0
    exact ⟨rfl, rfl⟩
  | succ n ih =>
    intro dc ed evs st u s d0
    unfold PS.run_sim_loop
    by_cases hcd : dc < ed
    · simp only [if_pos hcd, getLastD_append_one, c8_generate, c8_update, c8_check,
        Bool.false_eq_true, if_false]
      exact ih _ ed (evs ++ [c8ev dc u]) (st ++ [c8w d0]) (u + 1) _ dc
    · rw [if_neg hcd]
      exact ⟨rfl, rfl⟩


theorem run_sim_loop_states_prefix (fuel : Nat) :
    ∀ (dc ed : Int) (evs : List PS.TimelineEvent) (st : List PS.WorldState) (u s : Nat),
    st <+: (PS.run_sim_loop fuel dc ed evs st u s).world_states := by
  induction fuel with
  | zero =>
    intro dc ed evs st u s
    exact List.prefix_refl st
  | succ n ih =>
    intro dc ed evs st u s
    unfold PS.run_sim_loop
    by_cases hcd : dc < ed
    · simp only [if_pos hcd]
      rcases hgen : PS.generate_next_event dc (st.getLastD PS.worldStateNone) u s with
        ⟨oev, u1, s1⟩
      cases oev with
      | none => exact ih _ ed evs st u1 _
      | some ev =>
        dsimp only
        rcases hend : PS.check_end_conditions
            (PS.update_world_state (st.getLastD PS.worldStateNone) ev) with _ | _
        · exact List.IsPrefix.trans (List.prefix_append st _) (ih _ ed (evs ++ [ev]) _ u1 _)
        · exact List.prefix_append st _
    · rw [if_neg hcd]
      try exact List.prefix_refl st

theorem apply_outcome_trust_range {ws : WB.WorldState} {o : WB.Outcome}
    (h : ∀ p ∈ ws.relations, -100 ≤ p.2.trust_level ∧ p.2.trust_level ≤ 100) :
    ∀ p ∈ (WB.apply_outcome ws o).relations, -100 ≤ p.2.trust_level ∧ p.2.trust_level ≤ 100 := by
  unfold WB.apply_outcome
  cases hf : ws.actions.find? (fun a => a.id = o.action_id) with
  | none => simpa using h
  | some a =>
    dsimp only
    cases hr : alookup (WB.relation_key a) ws.relations with
    | none => simpa using h
    | some r =>
      dsimp only
      intro p hp
      rcases mem_dinsert hp with hv | hv
      · rw [hv]
        constructor <;> simp [le_max_iff, max_le_iff, min_le_iff, le_min_iff]
      · exact h p hv

/-! Claim theorems. -/

/-- C1: every interactive tick raises before appending a map snapshot: the
call `self._create_map_state(world_state)` (world_brain.py:253) supplies one
positional argument where `_create_map_state` (world_brain.py:784) requires
two, so `tick` ends in a TypeError on every input; in particular on the
concrete empty world, under the narration-unavailable scenario, the pipeline
runs its fallback narration and then fails at the snapshot step, so no step
ever completes or appends a snapshot. -/
theorem c1_tick_always_raises :
    (∀ (ws : WB.WorldState) (now : Int) (s : Nat), ∃ e, WB.tick ws now s = Except.error e)
    ∧ WB.tick wbEmptyWorld 0 0 = Except.error (PyErr.typeError
        "_create_map_state() missing 1 required positional argument: relations") := by
  constructor
  · intro ws now s
    unfold WB.tick
    cases h : WB.tickCore ws s with
    | error e => exact ⟨e, by simp [h, Bind.bind, Except.bind]⟩
    | ok v =>
      refine ⟨PyErr.typeError
        "_create_map_state() missing 1 required positional argument: relations", ?_⟩
      simp [h, Bind.bind, Except.bind, WB.tick_map_state_call,
        WB.tick_map_state_arg_count, WB.create_map_state_param_count]
  · with_unfolding_all rfl

/-- C2 (amended): for every nonzero seed passed at initialization, two runs
of N steps over the same reference data and start state produce identical
results whatever the ambient PRNG states were, because `random.seed` then
resets the PRNG to a function of the seed alone. (Seed 0 is falsy in the
`if seed:` guard of world_brain.py:139 and skips reseeding, which is what
the counterexample exploits.) -/
theorem c2_nonzero_seed_replay (n : Int) (h : n ≠ 0) (N : Nat)
    (cd : List (String × WB.CountryData)) (ld : List (String × WB.LeaderData))
    (gi : List (String × ℚ)) (sd now : Int) (s1 s2 : Nat) :
    WB.run_steps N (WB.initialize_world (some n) cd ld gi sd now s1).1
      (WB.initialize_world (some n) cd ld gi sd now s1).2
    = WB.run_steps N (WB.initialize_world (some n) cd ld gi sd now s2).1
      (WB.initialize_world (some n) cd ld gi sd now s2).2 := by
  have ht : pyTruthy (some n) = true := by simp [pyTruthy, h]
  unfold WB.initialize_world
  rw [ht]
  simp

/-- C2 witness: the determinism theorem applied at seed 42, two distinct
ambient PRNG states, and empty reference data. -/
theorem c2_nonzero_seed_replay_witness :
    WB.run_steps 0 (WB.initialize_world (some 42) [] [] [] 0 0 0).1
      (WB.initialize_world (some 42) [] [] [] 0 0 0).2
    = WB.run_steps 0 (WB.initialize_world (some 42) [] [] [] 0 0 1).1
      (WB.initialize_world (some 42) [] [] [] 0 0 1).2 :=
  c2_nonzero_seed_replay 42 (by decide) 0 [] [] [] 0 0 0 1

set_option maxHeartbeats 16000000 in
/-- C2 counterexample: with seed 0 the PRNG is not reseeded (`if seed:` is
false), so two one-step runs over the same initial world but different
ambient PRNG states produce different Action sequences (one action versus
none). -/
theorem c2_seed_zero_cex :
    (c2run 4).1.actions.length = 1 ∧ (c2run 3).1.actions.length = 0
    ∧ ¬ ((c2run 4).1.actions = (c2run 3).1.actions) := by
  have h1 : (c2run 4).1.actions.length = 1 := by with_unfolding_all rfl
  have h0 : (c2run 3).1.actions.length = 0 := by with_unfolding_all rfl
  refine ⟨h1, h0, fun he => ?_⟩
  rw [he, h0] at h1
  cases h1

/-- C5 (amended): Outcome.impact-magnitude always lies in [0, 100]; the
pre-perturbation magnitude is the intensity on success and the intensity
floor-divided by two (`// 2`) on failure — exactly half only for even
intensity; intensity 80 with failure and zero perturbation yields 40. -/
theorem c5_impact_magnitude :
    (∀ (i d : Int) (b : Bool), 0 ≤ WB.impact_of i b d ∧ WB.impact_of i b d ≤ 100)
    ∧ (∀ i : Int, WB.pre_magnitude i false = Int.fdiv i 2)
    ∧ (∀ i : Int, i % 2 = 0 → 2 * WB.pre_magnitude i false = WB.pre_magnitude i true)
    ∧ WB.impact_of 80 false 0 = 40
    ∧ (∀ (acts : List WB.Action) (s : Nat), ∀ o ∈ (WB.process_actions acts s).1,
        0 ≤ o.impact_magnitude ∧ o.impact_magnitude ≤ 100) := by
  have hbounds : ∀ (i d : Int) (b : Bool), 0 ≤ WB.impact_of i b d ∧ WB.impact_of i b d ≤ 100 := by
    intro i d b
    unfold WB.impact_of
    constructor
    · exact le_max_left 0 _
    · exact max_le (by norm_num) (min_le_left _ _)
  refine ⟨hbounds, fun i => rfl, ?_, by decide, ?_⟩
  · intro i hi
    have h2 : Int.fdiv i 2 = i / 2 := Int.fdiv_eq_ediv i (by norm_num)
    simp only [WB.pre_magnitude, if_false, if_true, Bool.false_eq_true]
    rw [h2]
    omega
  · intro acts s
    have key : ∀ (l : List WB.Action) (acc : List WB.Outcome) (s0 : Nat),
        (∀ o ∈ acc, 0 ≤ o.impact_magnitude ∧ o.impact_magnitude ≤ 100) →
        ∀ o ∈ (l.foldl (fun acc2 a =>
            let p := WB.resolve_action a acc2.2
            (acc2.1 ++ [p.1], p.2)) (acc, s0)).1,
          0 ≤ o.impact_magnitude ∧ o.impact_magnitude ≤ 100 := by
      intro l
      induction l with
      | nil => intro acc s0 hacc; simpa using hacc
      | cons a t iht =>
        intro acc s0 hacc
        simp only [List.foldl]
        apply iht
        intro o ho
        rcases List.mem_append.1 ho with ho | ho
        · exact hacc o ho
        · rw [List.eq_of_mem_singleton ho]
          exact hbounds _ _ _
    intro o ho
    exact key acts [] s (by simp) o (by simpa [WB.process_actions] using ho)

/-- C5 witness: the even-intensity exact-half relation applied at
intensity 80. -/
theorem c5_impact_witness : 2 * WB.pre_magnitude 80 false = WB.pre_magnitude 80 true :=
  c5_impact_magnitude.2.2.1 80 (by decide)

/-- C5 counterexample: at the odd intensity 81 the failure-case
pre-perturbation magnitude is 40, which is not exactly half of 81. -/
theorem c5_odd_intensity_cex :
    WB.pre_magnitude 81 false = 40
    ∧ ¬ (2 * WB.pre_magnitude 81 false = WB.pre_magnitude 81 true) := by
  constructor
  · decide
  · decide

/-- C3: end conditions are evaluated in the fixed precedence nuclear, then
economic, then stability: `_check_end_conditions` fires iff one of the three
thresholds holds, `_determine_end_scenario` reports the nuclear scenario
whenever nuclear-threat-level exceeds 0.9, and in particular when the
nuclear and stability conditions hold simultaneously the recorded scenario
is the nuclear-war one and the run ends. -/
theorem c3_end_condition_precedence :
    (∀ ws : PS.WorldState, PS.check_end_conditions ws =
      (decide (ws.nuclear_threat_level > 0.9)
        || decide (PS.indicatorD ws "global_gdp_growth" 0 < -0.1)
        || decide (ws.world_stability_index < 0.1)))
    ∧ (∀ ws : PS.WorldState, ws.nuclear_threat_level > 0.9 →
        PS.determine_end_scenario ws
          = "Nuclear War: Multiple nuclear exchanges between major powers lead to global devastation")
    ∧ (∀ ws : PS.WorldState, ws.nuclear_threat_level > 0.9 → ws.world_stability_index < 0.1 →
        PS.determine_end_scenario ws
          = "Nuclear War: Multiple nuclear exchanges between major powers lead to global devastation"
        ∧ PS.check_end_conditions ws = true) := by
  have hdet : ∀ ws : PS.WorldState, ws.nuclear_threat_level > 0.9 →
      PS.determine_end_scenario ws
        = "Nuclear War: Multiple nuclear exchanges between major powers lead to global devastation" := by
    intro ws h
    unfold PS.determine_end_scenario
    rw [if_pos h]
  refine ⟨?_, hdet, ?_⟩
  · intro ws
    unfold PS.check_end_conditions
    split_ifs <;> simp_all
  · intro ws h1 h2
    refine ⟨hdet ws h1, ?_⟩
    unfold PS.check_end_conditions
    rw [if_pos h1]

/-- C3 witness: the precedence theorem applied to a state where both the
nuclear and stability conditions hold. -/
theorem c3_precedence_witness :
    PS.determine_end_scenario c3ws
      = "Nuclear War: Multiple nuclear exchanges between major powers lead to global devastation"
    ∧ PS.check_end_conditions c3ws = true :=
  c3_end_condition_precedence.2.2 c3ws (by norm_num [c3ws]) (by norm_num [c3ws])

/-- C4 (amended): for a resolved Outcome whose action is found and whose
actor_target key exists in the relations dict, trust moves by the
diplomatic impact (up on success, down on failure) and is clamped to
[-100, 100]; when the shifted value is already in range the clamp is a
no-op; and any update keeps every stored trust inside [-100, 100].
Outcomes whose actor follows the target lexicographically find no key and
leave the relations unchanged (the counterexample). -/
theorem c4_trust_update :
    (∀ (ws : WB.WorldState) (o : WB.Outcome) (a : WB.Action) (r : WB.Relation),
      ws.actions.find? (fun x => x.id = o.action_id) = some a →
      alookup (WB.relation_key a) ws.relations = some r →
      alookup (WB.relation_key a) (WB.update_world_state ws [o]).relations
        = some { r with trust_level := max (-100) (min 100
            (if o.success then r.trust_level + o.diplomatic_impact
             else r.trust_level - o.diplomatic_impact)) })
    ∧ (∀ t : Int, -100 ≤ t → t ≤ 100 → max (-100) (min 100 t) = t)
    ∧ (∀ (ws : WB.WorldState) (outcomes : List WB.Outcome),
        (∀ p ∈ ws.relations, -100 ≤ p.2.trust_level ∧ p.2.trust_level ≤ 100) →
        ∀ p ∈ (WB.update_world_state ws outcomes).relations,
          -100 ≤ p.2.trust_level ∧ p.2.trust_level ≤ 100) := by
  refine ⟨?_, ?_, ?_⟩
  · intro ws o a r hfind hrel
    show alookup (WB.relation_key a) (WB.apply_outcome ws o).relations = _
    unfold WB.apply_outcome
    rw [hfind]
    dsimp only
    rw [hrel]
    dsimp only
    exact alookup_dinsert_self _ _ _
  · intro t h1 h2
    rcases le_total t 100 with h3 | h3 <;> rcases le_total (-100) t with h4 | h4 <;>
      simp [max_def, min_def] <;> omega
  · intro ws outcomes
    induction outcomes generalizing ws with
    | nil => intro h; simpa [WB.update_world_state] using h
    | cons o t ih =>
      intro h
      have step := apply_outcome_trust_range h (o := o)
      have := ih (WB.apply_outcome ws o) step
      simpa [WB.update_world_state] using this

/-- C4 witness: the update theorem applied to a concrete world where the
actor_target key exists; trust moves from 0 to 10. -/
theorem c4_trust_update_witness :
    alookup (WB.relation_key c4good_action)
        (WB.update_world_state c4good_ws [c4good_outcome]).relations
      = some { c4rel with trust_level := max (-100) (min 100
          (if c4good_outcome.success then c4rel.trust_level + c4good_outcome.diplomatic_impact
           else c4rel.trust_level - c4good_outcome.diplomatic_impact)) } :=
  c4_trust_update.1 c4good_ws c4good_outcome c4good_action c4rel
    (by with_unfolding_all rfl) (by with_unfolding_all rfl)

/-- C4 counterexample: an outcome whose actor "b" targets "a" looks up the
missing key "b_a", so the stored "a_b" relation keeps trust 0 instead of
being increased to 10 as the claim states. -/
theorem c4_missing_key_cex :
    ((alookup "a_b" (WB.update_world_state c4ws [c4outcome]).relations).map
        WB.Relation.trust_level = some 0)
    ∧ ¬ ((alookup "a_b" (WB.update_world_state c4ws [c4outcome]).relations).map
        WB.Relation.trust_level = some 10) := by
  have h1 : (alookup "a_b" (WB.update_world_state c4ws [c4outcome]).relations).map
      WB.Relation.trust_level = some 0 := by with_unfolding_all rfl
  refine ⟨h1, fun h => ?_⟩
  rw [h1] at h
  exact absurd (Option.some.inj h) (by decide)

/-- C9: seeded trust is the base (60 same bloc, else 40 on intersecting
alliance sets, else 0) plus the regime adjustment (+20 on matching regime
types, -30 for a democracy/authoritarian pair); the alliance-overlap count
is nonzero exactly when the alliance sets intersect; and two countries with
identical bloc, alliance set and regime type seed trust 80. -/
theorem c9_relation_seeding :
    (∀ ca cb : WB.Country, (WB.initialize_relation ca cb).trust_level =
      (if ca.bloc = cb.bloc then 60
       else if WB.alliance_overlap ca.alliances cb.alliances ≠ 0 then 40 else 0)
      + (if ca.regime_type = cb.regime_type then 20
         else if (ca.regime_type = "democracy" ∧ cb.regime_type = "authoritarian")
             ∨ (ca.regime_type = "authoritarian" ∧ cb.regime_type = "democracy") then -30
         else 0))
    ∧ (∀ a b : List String, WB.alliance_overlap a b ≠ 0 ↔ ∃ x, x ∈ a ∧ x ∈ b)
    ∧ (WB.initialize_relation (c9country "c1") (c9country "c2")).trust_level = 80 := by
  refine ⟨?_, ?_, by with_unfolding_all rfl⟩
  · intro ca cb
    unfold WB.initialize_relation
    dsimp only
    split_ifs <;> omega
  · intro a b
    unfold WB.alliance_overlap
    rw [Ne, List.length_eq_zero, List.filter_eq_nil_iff]
    constructor
    · intro h
      by_contra hn
      push_neg at hn
      exact h fun x hx => by
        simp only [decide_eq_true_eq]
        exact fun hxb => hn x (List.mem_dedup.1 hx) hxb
    · intro ⟨x, hxa, hxb⟩ h
      have := h x (List.mem_dedup.2 hxa)
      simp only [decide_eq_true_eq] at this
      exact this hxb

/-- C6: the claim that a step with an active pattern always synthesizes and
appends one TimelineEvent fails: `_create_roman_decline_event` handles only
two of its four drawn event types and returns Python None for
diplomatic_crisis and alliance_shift, so on the concrete state `c6ws` -- where
six patterns are active, led by roman_decline -- the step at PRNG state 1
draws diplomatic_crisis, synthesizes no event and appends nothing. -/
theorem c6_roman_event_dropped :
    ((PS.identify_active_patterns c6ws).map PS.ActivePattern.pattern
      = [PS.HistoricalPattern.roman_decline, PS.HistoricalPattern.persian_expansion,
         PS.HistoricalPattern.byzantine_diplomacy, PS.HistoricalPattern.mongol_conquest,
         PS.HistoricalPattern.ottoman_decline, PS.HistoricalPattern.cold_war_escalation])
    ∧ (∀ (date : Int) (u s : Nat),
        (randChoice PS.roman_event_types PS.WorldEventType.economic_collapse s).1
            = PS.WorldEventType.diplomatic_crisis
          ∨ (randChoice PS.roman_event_types PS.WorldEventType.economic_collapse s).1
            = PS.WorldEventType.alliance_shift →
        (PS.create_roman_decline_event date u s).1 = none)
    ∧ (randChoice PS.roman_event_types PS.WorldEventType.economic_collapse 1).1
        = PS.WorldEventType.diplomatic_crisis
    ∧ (PS.generate_next_event 0 c6ws 0 1).1 = none
    ∧ (PS.run_sim_loop 1 0 3650 [] [c6ws] 0 1).timeline_events = [] := by
  refine ⟨by with_unfolding_all rfl, ?_, by with_unfolding_all rfl,
    by with_unfolding_all rfl, by with_unfolding_all rfl⟩
  intro date u s h
  unfold PS.create_roman_decline_event
  rcases hc : randChoice PS.roman_event_types PS.WorldEventType.economic_collapse s with ⟨et, s1⟩
  rw [hc] at h
  dsimp only at h ⊢
  rcases h with h | h <;> rw [h] <;> rfl

/-- C7: timeline-event dates are strictly increasing within one predictive
run: every event carries the clock value at synthesis and the clock advances
by exactly 1 day per step while the timeline is empty and by a uniform 1-30
days per step once an event exists. -/
theorem c7_dates_strictly_increasing :
    (∀ (sim : PS.Simulation) (u s : Nat),
      List.Chain' (fun x y => x < y)
        ((PS.run_predictive_simulation sim u s).timeline_events.map PS.TimelineEvent.date))
    ∧ (∀ s : Nat, (PS.days_advance false s).1 = 1)
    ∧ (∀ s : Nat, 1 ≤ (PS.days_advance true s).1 ∧ (PS.days_advance true s).1 ≤ 30) := by
  refine ⟨?_, days_advance_false, days_advance_true⟩
  intro sim u s
  have h := run_sim_loop_dates_chain 3651 sim.start_date (sim.start_date + 3650) []
    [sim.world_states.getD 0 PS.worldStateNone] u s (by simp) (by simp)
  simpa [PS.run_predictive_simulation] using h

/-- C8 (amended): the end scenario of a predictive run is written only on
the event that trips an end condition; a run that exits at the horizon
leaves `end_scenario` as None (mirrored by `predicted_end_date`), it is not
set to an "unknown/ongoing" value. So `end_scenario = none` iff
`predicted_end_date = none`, and any recorded scenario is one of the three
explicit end-condition strings. -/
theorem c8_horizon_scenario :
    ∀ (sim : PS.Simulation) (u s : Nat),
      ((PS.run_predictive_simulation sim u s).end_scenario = none
        ↔ (PS.run_predictive_simulation sim u s).predicted_end_date = none)
      ∧ ((PS.run_predictive_simulation sim u s).end_scenario = none
        ∨ (PS.run_predictive_simulation sim u s).end_scenario
            = some "Nuclear War: Multiple nuclear exchanges between major powers lead to global devastation"
        ∨ (PS.run_predictive_simulation sim u s).end_scenario
            = some "Economic Collapse: Global economic system collapses, leading to widespread chaos and conflict"
        ∨ (PS.run_predictive_simulation sim u s).end_scenario
            = some "Global Chaos: Complete breakdown of international order leads to widespread conflict") := by
  intro sim u s
  have hes : (PS.run_predictive_simulation sim u s).end_scenario
      = (PS.run_sim_loop 3651 sim.start_date (sim.start_date + 3650) []
          [sim.world_states.getD 0 PS.worldStateNone] u s).end_scenario := rfl
  have hpd : (PS.run_predictive_simulation sim u s).predicted_end_date
      = (PS.run_sim_loop 3651 sim.start_date (sim.start_date + 3650) []
          [sim.world_states.getD 0 PS.worldStateNone] u s).predicted_end_date := rfl
  rcases run_sim_loop_scenario 3651 sim.start_date (sim.start_date + 3650) []
      [sim.world_states.getD 0 PS.worldStateNone] u s with ⟨h1, h2⟩ | ⟨ws, d, hchk, h1, h2⟩
  · rw [hes, hpd, h1, h2]
    exact ⟨by simp, Or.inl rfl⟩
  · rw [hes, hpd, h1, h2]
    refine ⟨by simp, ?_⟩
    rcases determine_of_check hchk with hd | hd | hd <;> rw [hd]
    · exact Or.inr (Or.inl rfl)
    · exact Or.inr (Or.inr (Or.inl rfl))
    · exact Or.inr (Or.inr (Or.inr rfl))

/-- C8 counterexample: a run that reaches the ten-year horizon with no end
condition firing (every step keeps the indicators fixed) ends with
`end_scenario = none`, not the "unknown/ongoing" marker the claim requires. -/
theorem c8_horizon_cex :
    c8sim.predicted_end_date = none ∧ c8sim.end_scenario = none
    ∧ ¬ (c8sim.end_scenario
          = some "Unknown End: Simulation ended under unclear circumstances") := by
  have h := c8_loop 3651 0 ((0 : Int) + 3650) [] [] 0 0 0
  rw [List.nil_append] at h
  have h1 : c8sim.end_scenario = none := h.1
  have h2 : c8sim.predicted_end_date = none := h.2
  exact ⟨h2, h1, by rw [h1]; exact fun hx => Option.noConfusion hx⟩

/-- C10: the global-growth indicator starts at 0.03 in the seeded baseline
state; an economic-collapse event moves it to max(-0.05, previous - 0.02)
and no other event touches it, so it never drops below -0.05 in any state
of an observe-the-end run; hence whenever an end condition fires in such a
state it is the nuclear or stability condition, never the economic one
(which needs growth below -0.1). -/
theorem c10_gdp_floor :
    (∀ now : Int, PS.indicatorD (PS.get_current_world_state now) "global_gdp_growth" 0 = 0.03)
    ∧ (∀ (ws : PS.WorldState) (e : PS.TimelineEvent),
        e.event_type = PS.WorldEventType.economic_collapse →
        PS.indicatorD (PS.update_world_state ws e) "global_gdp_growth" 0
          = max (-0.05) (PS.indicatorD ws "global_gdp_growth" 0 - 0.02))
    ∧ (∀ (ws : PS.WorldState) (e : PS.TimelineEvent),
        -(0.05 : ℚ) ≤ PS.indicatorD ws "global_gdp_growth" 0 →
        -(0.05 : ℚ) ≤ PS.indicatorD (PS.update_world_state ws e) "global_gdp_growth" 0)
    ∧ (∀ (sid : String) (now : Int) (u s : Nat),
        ∀ ws ∈ (PS.create_observe_the_end_simulation sid now u s).world_states,
          -(0.05 : ℚ) ≤ PS.indicatorD ws "global_gdp_growth" 0)
    ∧ (∀ ws : PS.WorldState,
        -(0.05 : ℚ) ≤ PS.indicatorD ws "global_gdp_growth" 0 →
        PS.check_end_conditions ws = true →
        ws.nuclear_threat_level > 0.9 ∨ ws.world_stability_index < 0.1) := by
  have hinit : ∀ now : Int,
      PS.indicatorD (PS.get_current_world_state now) "global_gdp_growth" 0 = 0.03 :=
    fun now => by with_unfolding_all rfl
  refine ⟨hinit, fun ws e h => gdp_update_econ e h, fun ws e h => gdp_update_ge e h, ?_, ?_⟩
  · intro sid now u s ws hws
    have h0 : ∀ w ∈ [PS.get_current_world_state now],
        -(0.05 : ℚ) ≤ PS.indicatorD w "global_gdp_growth" 0 := by
      intro w hw
      rw [List.eq_of_mem_singleton hw, hinit now]
      norm_num
    exact run_sim_loop_states_inv 3651 now (now + 3650) []
      [PS.get_current_world_state now] u s h0 ws hws
  · intro ws h hc
    unfold PS.check_end_conditions at hc
    split_ifs at hc with h1 h2 h3
    · exact Or.inl h1
    · exact absurd h2 (by linarith)
    · exact Or.inr h3

end Royalm
